import Mathlib

/-!
Verification of the graph-checks engine of the graph-hopper repository.

The Python analyzers in `src/graph_hopper/graph_checks/` are shallowly
embedded: an RDF graph is a list of (subject, predicate, object) string
triples (rdflib stores a set of triples; the list fixes one iteration
order), Python dicts are insertion-ordered association lists, Python sets
are duplicate-free insertion-ordered lists, and every analyzer is a pure
Lean function translated statement by statement from the source.
-/

namespace GraphHopper

/-- One RDF triple; subjects, predicates and objects are URI/literal strings. -/
structure Triple where
  s : String
  p : String
  o : String
deriving DecidableEq

/-- An rdflib `Graph`, modelled as a list of triples in iteration order. -/
abbrev RdfGraph := List Triple

/-- The BACnet namespace used by `graph_checks.utils.BACNET_NS`. -/
def bacnet (name : String) : String := "http://data.ashrae.org/bacnet/2020#" ++ name

/-- The `rdf:type` predicate URI. -/
def rdfType : String := "http://www.w3.org/1999/02/22-rdf-syntax-ns#type"

/-- The `rdfs:label` predicate URI. -/
def rdfsLabel : String := "http://www.w3.org/2000/01/rdf-schema#label"

/-- `graph.triples((s?, p?, o?))`: pattern query; `none` is a wildcard. -/
def triplesQ (g : RdfGraph) (s p o : Option String) : List Triple :=
  g.filter fun t =>
    (match s with | none => true | some x => decide (t.s = x)) &&
    (match p with | none => true | some x => decide (t.p = x)) &&
    (match o with | none => true | some x => decide (t.o = x))

/-- Subjects of all triples matching `(?, p, o)`. -/
def subjectsQ (g : RdfGraph) (p o : String) : List String :=
  (triplesQ g none (some p) (some o)).map (·.s)

/-- Objects of all triples matching `(s, p, ?)`. -/
def objectsQ (g : RdfGraph) (s p : String) : List String :=
  (triplesQ g (some s) (some p) none).map (·.o)

/-- First object of `(s, p, ?)`: models a `for ...: ...; break` loop. -/
def firstObject (g : RdfGraph) (s p : String) : Option String :=
  (objectsQ g s p).head?

/-- Last object of `(s, p, ?)`: models a `for` loop without `break` that
keeps overwriting one variable. -/
def lastObject (g : RdfGraph) (s p : String) : Option String :=
  (objectsQ g s p).getLast?

/-- Python set `add`: appends only when the element is absent (a set is
modelled as a duplicate-free list in insertion order). -/
def insertNew {α : Type} [DecidableEq α] (l : List α) (v : α) : List α :=
  if v ∈ l then l else l ++ [v]

/-- Python set union (`update`). -/
def insertAll {α : Type} [DecidableEq α] (l : List α) (vs : List α) : List α :=
  vs.foldl insertNew l

/-- `m.get(k)` on an insertion-ordered dict. -/
def dictGet? {α : Type} (m : List (String × α)) (k : String) : Option α :=
  match m with
  | [] => none
  | (k', v) :: rest => if k' = k then some v else dictGet? rest k

/-- `m.get(k, d)` / `defaultdict` read access. -/
def dictGetD {α : Type} (m : List (String × α)) (k : String) (d : α) : α :=
  (dictGet? m k).getD d

/-- `m[k] = v`: update in place, or append a new key. -/
def dictSet {α : Type} (m : List (String × α)) (k : String) (v : α) : List (String × α) :=
  match m with
  | [] => [(k, v)]
  | (k', v') :: rest => if k' = k then (k', v) :: rest else (k', v') :: dictSet rest k v

/-- `defaultdict(list)`: `m[k].append(v)`. -/
def dictAppend {α : Type} (m : List (String × List α)) (k : String) (v : α) :
    List (String × List α) :=
  match m with
  | [] => [(k, [v])]
  | (k', vs) :: rest =>
    if k' = k then (k', vs ++ [v]) :: rest else (k', vs) :: dictAppend rest k v

/-- `defaultdict(set)`: `m[k].add(v)`. -/
def dictAddToSet {α : Type} [DecidableEq α] (m : List (String × List α)) (k : String)
    (v : α) : List (String × List α) :=
  match m with
  | [] => [(k, [v])]
  | (k', vs) :: rest =>
    if k' = k then (k', insertNew vs v) :: rest else (k', vs) :: dictAddToSet rest k v

/-- Whether `pre` is a prefix of `l`. -/
def listStartsWith {α : Type} [DecidableEq α] : List α → List α → Bool
  | [], _ => true
  | _ :: _, [] => false
  | a :: as, b :: bs => a = b && listStartsWith as bs

/-- Whether `pat` occurs as a contiguous subsequence of the list. -/
def listHasSub (pat : List Char) : List Char → Bool
  | [] => listStartsWith pat []
  | c :: rest => listStartsWith pat (c :: rest) || listHasSub pat rest

/-- Python's substring test `sub in s`. -/
def strHasSub (s sub : String) : Bool :=
  listHasSub sub.toList s.toList

/-- Python `s.split(sep)` for a one-character separator, on char lists:
splits at every occurrence, keeping empty segments. -/
def splitOnChar (sep : Char) : List Char → List (List Char)
  | [] => [[]]
  | c :: rest =>
    match splitOnChar sep rest with
    | [] => [[]]
    | r :: rs => if c = sep then [] :: r :: rs else (c :: r) :: rs

/-- Python `s.split(sep)` for a one-character separator. -/
def strSplit (s : String) (sep : Char) : List String :=
  (splitOnChar sep s.toList).map String.mk

/-- ASCII lower-casing (`str.lower()` on the ASCII data in scope here). -/
def strLower (s : String) : String := String.mk (s.toList.map Char.toLower)

/-- ASCII upper-casing (`str.upper()` on the ASCII data in scope here). -/
def strUpper (s : String) : String := String.mk (s.toList.map Char.toUpper)

/-- Python `str.strip()` on ASCII whitespace. -/
def pyStrip (s : String) : String :=
  String.mk (((s.toList.dropWhile Char.isWhitespace).reverse.dropWhile
    Char.isWhitespace).reverse)

/-- Lexicographic (code-point) comparison of char lists: Python `<` on
strings. -/
def listLt : List Char → List Char → Bool
  | [], [] => false
  | [], _ :: _ => true
  | _ :: _, [] => false
  | a :: as, b :: bs => if a < b then true else if b < a then false else listLt as bs

/-- Python `a < b` on strings. -/
def strLt (a b : String) : Bool := listLt a.toList b.toList

/-- Python `s.join(parts)`. -/
def joinWith (sep : String) : List String → String
  | [] => ""
  | [x] => x
  | x :: xs => x ++ sep ++ joinWith sep xs

/-- Decimal value of a digit list. -/
def digitsVal (cs : List Char) : Nat :=
  cs.foldl (fun a c => a * 10 + (c.toNat - 48)) 0

/-- Python `int(s)` after whitespace stripping: optional sign then
decimal digits (underscore separators and non-ASCII digits are not
modelled; the repository's data uses plain decimal literals). -/
def pyIntCore : List Char → Option Int
  | [] => none
  | c :: rest =>
    if c = '+' then
      if rest ≠ [] ∧ rest.all (·.isDigit) then some (digitsVal rest) else none
    else if c = '-' then
      if rest ≠ [] ∧ rest.all (·.isDigit) then some (-(digitsVal rest : Int)) else none
    else
      if (c :: rest).all (·.isDigit) then some (digitsVal (c :: rest)) else none

/-- Python `int(s)` returning `none` where Python raises `ValueError`. -/
def pyInt (s : String) : Option Int := pyIntCore (pyStrip s).toList

/-- Python string truthiness applied to an optional string: `None` and the
empty string are falsy. -/
def truthy : Option String → Bool
  | none => false
  | some s => s ≠ ""

/-- `x if x else d` for an optional string. -/
def orDefault (x : Option String) (d : String) : String :=
  match x with
  | some s => if s = "" then d else s
  | none => d

/-- `uri.split('/')[-1] if '/' in uri else uri` (both `_get_router_name`
and `_get_network_name` in `network_loops.py`). -/
def lastSegment (uri : String) : String :=
  if strHasSub uri "/" then
    match (strSplit uri '/').reverse with
    | [] => uri
    | x :: _ => x
  else uri

/-! ## duplicate_networks.py -/

/-- One element of a `duplicate-network`/`duplicate-router` issue's
`routers` list: `{'router': ..., 'subnets': ...}`. -/
structure DnRouterInfo where
  router : String
  subnets : List String
deriving DecidableEq

/-- An issue dict produced by `check_duplicate_networks`. -/
structure DnIssue where
  issue_type : String
  network : String
  router_count : Nat
  routers : List DnRouterInfo
  subnets : List String
  description : String
deriving DecidableEq

/-- `check_duplicate_networks` (duplicate_networks.py): groups routers by
`device-on-network` value and classifies collisions by subnet spread. The
source wraps the body in `try/except`; the body cannot fail here, so the
except branch is unreachable in the embedding. -/
def check_duplicate_networks (g : RdfGraph) (verbose : Bool) : List DnIssue × List Triple :=
  let routers_query := subjectsQ g rdfType (bacnet "Router")
  let router_networks : List (String × (List String × List String)) :=
    routers_query.foldl (fun m router =>
      let networks := objectsQ g router (bacnet "device-on-network")
      let subnets := objectsQ g router (bacnet "device-on-subnet")
      if networks ≠ [] then dictSet m router (networks, subnets) else m) []
  let network_to_routers : List (String × List DnRouterInfo) :=
    router_networks.foldl (fun m rinfo =>
      rinfo.2.1.foldl (fun m network =>
        dictAppend m network ⟨rinfo.1, rinfo.2.2⟩) m) []
  network_to_routers.foldl (fun acc entry =>
    let network := entry.1
    let router_list := entry.2
    if router_list.length > 1 then
      let all_subnets := router_list.foldl (fun s ri => insertAll s ri.subnets) []
      let td :=
        if all_subnets.length = 1 then
          ("duplicate-router", "Same network number on multiple routers in the same subnet")
        else
          ("duplicate-network", "Same network number on routers in different subnets")
      let issue : DnIssue :=
        ⟨td.1, network, router_list.length, router_list, all_subnets, td.2⟩
      let affected :=
        if verbose then
          acc.2 ++ router_list.foldl (fun ts ri => ts ++ triplesQ g (some ri.router) none none) []
        else acc.2
      (acc.1 ++ [issue], affected)
    else acc) ([], [])

/-! ## duplicate_devices.py -/

/-- One element of a `duplicate-device-id` issue's flattened `devices`
list: `{'device': ..., 'network': ..., 'network_type': ...}`. -/
structure DdDeviceFlat where
  device : String
  network : String
  network_type : String
deriving DecidableEq

/-- An issue dict produced by `check_duplicate_device_ids`. -/
structure DdIssue where
  issue_type : String
  device_id : String
  device_count : Nat
  devices : List DdDeviceFlat
  networks : List (String × String)
deriving DecidableEq

/-- `check_duplicate_device_ids` (duplicate_devices.py). Pass 1 groups all
`device-instance` subjects by instance value; pass 2 records each grouped
device's network/subnet memberships; pass 3 reports groups of more than one
device spanning more than one distinct scope. `set(network_sets)` and
`list(unique_networks)` are determinized as first-occurrence order. The
source's `try/except` body cannot fail here. -/
def check_duplicate_device_ids (g : RdfGraph) (verbose : Bool) : List DdIssue × List Triple :=
  let device_instances : List (String × List String) :=
    (triplesQ g none (some (bacnet "device-instance")) none).foldl
      (fun m t => dictAppend m t.o t.s) []
  let device_networks : List (String × (String × List (String × String))) :=
    device_instances.foldl (fun m entry =>
      entry.2.foldl (fun m device =>
        let networks :=
          (objectsQ g device (bacnet "device-on-network")).map (fun n => (n, "network")) ++
          (objectsQ g device (bacnet "device-on-subnet")).map (fun sn => (sn, "subnet"))
        if networks ≠ [] then dictSet m device (entry.1, networks) else m) m) []
  device_instances.foldl (fun acc entry =>
    let device_id := entry.1
    let devices := entry.2
    if devices.length > 1 then
      let collected :=
        devices.foldl
          (fun (p : List (String × String) × List (String × List (String × String))) device =>
            match dictGet? device_networks device with
            | some info => (p.1 ++ info.2, p.2 ++ [(device, info.2)])
            | none => p) ([], [])
      let unique_networks := insertAll ([] : List (String × String)) collected.1
      if unique_networks.length > 1 then
        let devices_flat := collected.2.foldl (fun fl di =>
          fl ++ di.2.map (fun nt => (⟨di.1, nt.1, nt.2⟩ : DdDeviceFlat))) []
        let issue : DdIssue :=
          ⟨"duplicate-device-id", device_id, devices.length, devices_flat, unique_networks⟩
        let affected :=
          if verbose then
            acc.2 ++ devices.foldl (fun ts d => ts ++ triplesQ g (some d) none none) []
          else acc.2
        (acc.1 ++ [issue], affected)
      else acc
    else acc) ([], [])

/-! ## orphaned_devices.py -/

/-- An issue dict produced by `check_orphaned_devices`; `triples` and
`verbose_description` are only present in verbose mode. -/
structure OrIssue where
  issue_type : String
  severity : String
  device : String
  label : String
  device_instance : String
  address : String
  description : String
  triples : Option (List Triple)
  verbose_description : Option String
deriving DecidableEq

/-- `check_orphaned_devices` (orphaned_devices.py): a typed `Device` with
neither `device-on-network` nor `device-on-subnet` triples is a critical
finding. -/
def check_orphaned_devices (g : RdfGraph) (verbose : Bool) : List OrIssue × List String :=
  (subjectsQ g rdfType (bacnet "Device")).foldl (fun acc device =>
    let label := orDefault (firstObject g device rdfsLabel) device
    let instce := orDefault (firstObject g device (bacnet "device-instance")) "unknown"
    let address := orDefault (firstObject g device (bacnet "address")) "unknown"
    let has_network := triplesQ g (some device) (some (bacnet "device-on-network")) none ≠ []
    let has_subnet := triplesQ g (some device) (some (bacnet "device-on-subnet")) none ≠ []
    if ¬ has_network ∧ ¬ has_subnet then
      let description :=
        s!"Device {label} (instance {instce}) is not connected to any network or subnet"
      let device_triples := triplesQ g (some device) none none
      let n := device_triples.length
      let issue : OrIssue :=
        ⟨"orphaned-device", "critical", device, label, instce, address, description,
         if verbose then some device_triples else none,
         if verbose then
           some (s!"Device {label} (URI: {device}) has {n} properties " ++
             "but lacks both ns1:device-on-network and ns1:device-on-subnet connections. " ++
             "This device cannot communicate with other devices on the BACnet network.")
         else none⟩
      (acc.1 ++ [issue], acc.2 ++ [device])
    else acc) ([], [])

/-! ## invalid_device_ranges.py -/

/-- An issue dict produced by `check_invalid_device_ranges`; the source
stores this dict under the key `type` (not `issue_type`). In the
out-of-range branch the source stores the parsed integer in
`device_instance`; it is kept here as its decimal rendering. -/
structure IdrIssue where
  type : String
  severity : String
  device : String
  label : String
  device_instance : String
  address : String
  description : String
  verbose_description : Option String
deriving DecidableEq

/-- Loop body of `check_invalid_device_ranges` for one typed `Device`
subject: parse `device-instance` and flag non-numeric or out-of-range
values; devices without a (truthy) instance are skipped. -/
def invalid_range_body (g : RdfGraph) (verbose : Bool) (device : String) :
    List IdrIssue × List String :=
  let device_instance := firstObject g device (bacnet "device-instance")
  let instShow := if truthy device_instance then device_instance.getD "" else "Unknown"
  let device_name := orDefault (firstObject g device rdfsLabel) ("Device " ++ instShow)
  let device_address := orDefault (firstObject g device (bacnet "address")) "Unknown"
  if ¬ truthy device_instance then ([], [])
  else
    let instStr := device_instance.getD ""
    match pyInt instStr with
    | none =>
      let issue : IdrIssue :=
        ⟨"invalid-device-ranges", "critical", device, device_name, instStr, device_address,
         s!"Device instance \"{instStr}\" is not a valid number. Valid range: 0-4194303",
         if verbose then
           some (s!"Device {device_name} (instance {instStr}) at address {device_address} " ++
             s!"has an invalid device instance \"{instStr}\" which is not a valid number. " ++
             "BACnet device instances must be integers in range 0-4194303.")
         else none⟩
      ([issue], [device])
    | some instance_id =>
      if instance_id < 0 ∨ instance_id > 4194303 then
        let issue : IdrIssue :=
          ⟨"invalid-device-ranges", "critical", device, device_name, toString instance_id,
           device_address,
           s!"Device instance {instance_id} is outside valid BACnet range (0-4194303)",
           if verbose then
             some (s!"Device {device_name} (instance {instance_id}) at address {device_address} " ++
               s!"has an invalid device instance {instance_id} which is outside the valid BACnet range. " ++
               "BACnet device instances must be in range 0-4194303.")
           else none⟩
        ([issue], [device])
      else ([], [])

/-- `check_invalid_device_ranges` (invalid_device_ranges.py): the loop over
typed `Device` subjects, accumulating issues and affected nodes. -/
def check_invalid_device_ranges (g : RdfGraph) (verbose : Bool) : List IdrIssue × List String :=
  (subjectsQ g rdfType (bacnet "Device")).foldl (fun acc d =>
    let r := invalid_range_body g verbose d
    (acc.1 ++ r.1, acc.2 ++ r.2)) ([], [])

/-! ## device_address_conflicts.py -/

/-- One entry of the per-scope device lists in
`check_device_address_conflicts`. -/
structure DacInfo where
  device : String
  device_name : String
  device_instance : String
  address : String
deriving DecidableEq

/-- An issue dict produced by `check_device_address_conflicts`; stored
under the key `type` in the source. -/
structure DacIssue where
  type : String
  severity : String
  network : String
  network_type : String
  address : String
  device_count : Nat
  devices : List DacInfo
  description : String
  verbose_description : Option String
deriving DecidableEq

/-- Second/third pass of `check_device_address_conflicts`: group one
scope's devices by address and flag every address held by more than one
device. `scopeWord` is `"network"` or `"subnet"` (used both as the
`network_type` value and in the message text, as in the source). -/
def dac_scope_issues (verbose : Bool) (scopeWord : String)
    (m : List (String × List DacInfo)) : List DacIssue × List String :=
  m.foldl (fun acc entry =>
    let scope := entry.1
    let address_map := entry.2.foldl (fun am di => dictAppend am di.address di) []
    address_map.foldl (fun acc e2 =>
      let address := e2.1
      let conflicting := e2.2
      if conflicting.length > 1 then
        let n := conflicting.length
        let issue : DacIssue :=
          ⟨"device-address-conflicts", "critical", scope, scopeWord, address, n, conflicting,
           s!"{n} devices share address {address} on {scopeWord} {scope}",
           if verbose then
             let names := joinWith ", " (conflicting.map (·.device_name))
             some (s!"Address conflict detected on {scopeWord} {scope}: " ++
               s!"Address {address} is assigned to {n} devices: " ++
               s!"{names}. This will cause communication failures " ++
               "as multiple devices cannot share the same address on the same network segment.")
           else none⟩
        (acc.1 ++ [issue], acc.2 ++ conflicting.map (·.device))
      else acc) acc) ([], [])

/-- `check_device_address_conflicts` (device_address_conflicts.py): collect
each addressed device's network and subnet memberships, then flag shared
addresses within each scope. -/
def check_device_address_conflicts (g : RdfGraph) (verbose : Bool) :
    List DacIssue × List String :=
  let pass1 :=
    (subjectsQ g rdfType (bacnet "Device")).foldl
      (fun (p : List (String × List DacInfo) × List (String × List DacInfo)) device =>
        let device_name := firstObject g device rdfsLabel
        let device_instance := firstObject g device (bacnet "device-instance")
        let device_address := firstObject g device (bacnet "address")
        let instShow := if truthy device_instance then device_instance.getD "" else "Unknown"
        let final_device_name := orDefault device_name ("Device " ++ instShow)
        let final_device_instance := instShow
        if ¬ truthy device_address then p
        else
          let info : DacInfo :=
            ⟨device, final_device_name, final_device_instance, device_address.getD ""⟩
          let nets := (objectsQ g device (bacnet "device-on-network")).foldl
            (fun m n => dictAppend m n info) p.1
          let subs := (objectsQ g device (bacnet "device-on-subnet")).foldl
            (fun m sn => dictAppend m sn info) p.2
          (nets, subs)) ([], [])
  let rn := dac_scope_issues verbose "network" pass1.1
  let rs := dac_scope_issues verbose "subnet" pass1.2
  (rn.1 ++ rs.1, rn.2 ++ rs.2)

/-! ## missing_vendor_ids.py -/

/-- An issue dict produced by `check_missing_vendor_ids`. -/
structure MviIssue where
  issue_type : String
  severity : String
  device : String
  label : String
  device_instance : String
  address : String
  vendor_id : Option String
  description : String
  verbose_description : Option String
deriving DecidableEq

/-- Numeric extraction for a vendor-id value: URI form
`bacnet://vendor/N` takes the last `/`-separated segment, otherwise the
whole string is parsed (`int(...)` with `None` on failure). -/
def vendor_numeric (vendor_id : String) : Option Int :=
  if listStartsWith "bacnet://vendor/".toList vendor_id.toList then
    pyInt (match (strSplit vendor_id '/').reverse with | [] => "" | x :: _ => x)
  else pyInt vendor_id

/-- Loop body of `check_missing_vendor_ids` for one typed `Device`
subject: skip Grasshopper nodes, then run the vendor-id ladder
(missing, non-numeric, negative, zero). Returns
(issues, affected nodes); the source's separate `affected_triples` list is
never appended to and is returned empty by the check itself. -/
def missing_vendor_body (g : RdfGraph) (verbose : Bool) (device : String) :
    List MviIssue × List String :=
  let device_name := firstObject g device rdfsLabel
  if (match device_name with
      | some n => strHasSub n "Grasshopper"
      | none => false) || strHasSub device "Grasshopper" then ([], [])
  else
    let device_instance := firstObject g device (bacnet "device-instance")
    let device_address := firstObject g device (bacnet "address")
    let vendor_id := firstObject g device (bacnet "vendor-id")
    let vendor_id_numeric : Option Int :=
      match vendor_id with
      | none => none
      | some v => vendor_numeric v
    let instShow := if truthy device_instance then device_instance.getD "" else "Unknown"
    let final_device_name := orDefault device_name ("Device " ++ instShow)
    let final_device_instance := instShow
    let final_device_address :=
      if truthy device_address then device_address.getD "" else "Unknown"
    if ¬ truthy vendor_id then
      let issue : MviIssue :=
        ⟨"missing-vendor-ids", "medium", device, final_device_name, final_device_instance,
         final_device_address, none,
         s!"Device {final_device_name} (instance {final_device_instance}) is missing vendor-id property",
         if verbose then
           some (s!"Device {final_device_name} (instance {final_device_instance}) at address {final_device_address} " ++
             "does not have a vendor-id property. BACnet devices should include vendor identification " ++
             "to assist with device management, troubleshooting, and interoperability. " ++
             "Vendor IDs should be numeric values registered with ASHRAE.")
         else none⟩
      ([issue], [device])
    else
      let vid := vendor_id.getD ""
      match vendor_id_numeric with
      | none =>
        let issue : MviIssue :=
          ⟨"missing-vendor-ids", "medium", device, final_device_name, final_device_instance,
           final_device_address, some vid,
           s!"Device {final_device_name} (instance {final_device_instance}) has invalid vendor-id format: \"{vid}\" (must be numeric or bacnet://vendor/N format)",
           if verbose then
             some (s!"Device {final_device_name} (instance {final_device_instance}) at address {final_device_address} " ++
               s!"has an invalid vendor-id \"{vid}\". BACnet vendor IDs must be positive integers " ++
               "registered with ASHRAE, either as simple numbers like \"123\" or URI format like \"bacnet://vendor/123\".")
           else none⟩
        ([issue], [device])
      | some nv =>
        if nv < 0 then
          let issue : MviIssue :=
            ⟨"missing-vendor-ids", "medium", device, final_device_name, final_device_instance,
             final_device_address, some vid,
             s!"Device {final_device_name} (instance {final_device_instance}) has invalid vendor-id: {nv} (must be positive)",
             if verbose then
               some (s!"Device {final_device_name} (instance {final_device_instance}) at address {final_device_address} " ++
                 s!"has an invalid vendor-id value \"{nv}\". BACnet vendor IDs must be positive integers " ++
                 "registered with ASHRAE. Negative values are not valid vendor identifiers.")
             else none⟩
          ([issue], [device])
        else if nv = 0 then
          let issue : MviIssue :=
            ⟨"missing-vendor-ids", "medium", device, final_device_name, final_device_instance,
             final_device_address, some vid,
             s!"Device {final_device_name} (instance {final_device_instance}) has invalid vendor-id: 0 (reserved value)",
             if verbose then
               some (s!"Device {final_device_name} (instance {final_device_instance}) at address {final_device_address} " ++
                 "has vendor-id \"0\" which is a reserved value. BACnet vendor IDs should be positive integers " ++
                 "registered with ASHRAE. Vendor ID 0 is not assigned to any manufacturer.")
             else none⟩
          ([issue], [device])
        else ([], [])

/-- `check_missing_vendor_ids` (missing_vendor_ids.py). NOTE: unlike the
other single checks it returns a 3-tuple
`(issues, affected_triples, affected_nodes)`; `affected_triples` is always
empty. -/
def check_missing_vendor_ids (g : RdfGraph) (verbose : Bool) :
    List MviIssue × List Triple × List String :=
  let r := (subjectsQ g rdfType (bacnet "Device")).foldl (fun acc d =>
    let r := missing_vendor_body g verbose d
    (acc.1 ++ r.1, acc.2 ++ r.2)) (([] : List MviIssue), ([] : List String))
  (r.1, [], r.2)

/-! ## network_loops.py -/

/-- One element of a network-loop issue's `routers_causing_loop` list. -/
structure RouterInLoop where
  router_uri : String
  router_name : String
  connects_from : String
  connects_to : String
  connection_type : String
deriving DecidableEq

/-- An issue dict produced by `check_network_loops`; the `details` dict is
flattened into the `networks_in_loop` / `routers_causing_loop` /
`broadcast_storm_risk` / `recommendation` fields. -/
structure NlIssue where
  issue_type : String
  severity : String
  description : String
  loop_size : Nat
  loop_path : List String
  networks_in_loop : List String
  routers_causing_loop : List RouterInLoop
  broadcast_storm_risk : String
  recommendation : String
deriving DecidableEq

/-- `_build_network_graph_with_routers`: bidirectional network adjacency
from each router's `device-on-network` × `serves-network` pairs, plus the
directed-edge-key → routers map (keys formatted `"A→B"`). -/
def build_network_graph_with_routers (g : RdfGraph) :
    List (String × List String) × List (String × List String) :=
  (subjectsQ g rdfType (bacnet "Router")).foldl (fun acc router =>
    let source_networks := objectsQ g router (bacnet "device-on-network")
    let target_networks := objectsQ g router (bacnet "serves-network")
    source_networks.foldl (fun acc source_net =>
      target_networks.foldl (fun acc target_net =>
        let ng := dictAddToSet acc.1 source_net target_net
        let ng := dictAddToSet ng target_net source_net
        let rc := dictAddToSet acc.2 (source_net ++ "→" ++ target_net) router
        let rc := dictAddToSet rc (target_net ++ "→" ++ source_net) router
        (ng, rc)) acc) acc) ([], [])

/-- `_dfs_cycle_detection`: depth-capped DFS looking for a path of length
at least 3 back to `target`. The source's `depth` counter (entry guard
`depth > 5`) is modelled as the fuel `6 - depth`, so the initial call uses
fuel 6. The recursive call receives copies of `visited`/`path`, exactly as
`visited.copy()` / `path[:]` do. -/
def dfs_cycle_detection (gr : List (String × List String)) (target : String) :
    Nat → String → List String → List String → List String
  | 0, _, _, _ => []
  | fuel + 1, node, visited, path =>
    if node ∈ visited then []
    else
      let visited' := visited ++ [node]
      let path' := path ++ [node]
      (dictGetD gr node []).foldl (fun acc neighbor =>
        if acc ≠ [] then acc
        else if neighbor = target ∧ path'.length ≥ 3 then path'
        else if neighbor ∉ visited' then
          dfs_cycle_detection gr target fuel neighbor visited' path'
        else []) []

/-- Lexicographic minimum of a string list (Python `min`, default `""`). -/
def minString (l : List String) : String :=
  match l with
  | [] => ""
  | x :: xs => xs.foldl (fun a b => if strLt b a then b else a) x

/-- Python `set(a) == set(b)` on string lists. -/
def sameSetStr (a b : List String) : Bool :=
  (a.all fun x => decide (x ∈ b)) && (b.all fun x => decide (x ∈ a))

/-- Cycle normalization in `_find_cycles_union_find`: rotate the cycle to
start at its lexicographically smallest member
(`min_idx = cycle.index(min(cycle))`;
`normalized_cycle = cycle[min_idx:] + cycle[:min_idx]`). -/
def fcuf_norm (cycle : List String) : List String :=
  cycle.drop (cycle.indexOf (minString cycle)) ++ cycle.take (cycle.indexOf (minString cycle))

/-- One iteration of the `for start_node in all_nodes` loop of
`_find_cycles_union_find`, over the state
`(cycles, visited_global)`. -/
def fcuf_step (gr : List (String × List String))
    (st : List (List String) × List String) (start_node : String) :
    List (List String) × List String :=
  if start_node ∈ st.2 then st
  else
    let cycle := dfs_cycle_detection gr start_node 6 start_node [] []
    let st' :=
      if cycle ≠ [] ∧ cycle.length ≥ 3 then
        if st.1.any (fun existing => sameSetStr (fcuf_norm cycle) existing) then st
        else (st.1 ++ [fcuf_norm cycle], insertAll st.2 (fcuf_norm cycle))
      else st
    (st'.1, insertNew st'.2 start_node)

/-- `_find_cycles_union_find`: one DFS per unvisited node, normalizing each
found cycle to start at its lexicographically smallest member and keeping
only cycles whose member set was not seen before. -/
def find_cycles_union_find (gr : List (String × List String)) : List (List String) :=
  let all_nodes := gr.map (·.1)
  if all_nodes.length < 3 then []
  else
    (all_nodes.foldl (fcuf_step gr) (([] : List (List String)), ([] : List String))).1

/-- `_find_routers_in_loop`: for each consecutive edge of the cycle
(wrapping around), look up its contributing routers and collect them,
skipping routers already collected. -/
def find_routers_in_loop (networks_in_loop : List String)
    (router_connections : List (String × List String)) : List RouterInLoop :=
  let len := networks_in_loop.length
  (List.range len).foldl (fun loop_routers i =>
    let current_net := (networks_in_loop.drop i).headD ""
    let next_net := (networks_in_loop.drop ((i + 1) % len)).headD ""
    let routers := dictGetD router_connections (current_net ++ "→" ++ next_net) []
    routers.foldl (fun lr router =>
      let info : RouterInLoop :=
        ⟨router, lastSegment router, lastSegment current_net, lastSegment next_net,
         "bidirectional routing"⟩
      if lr.any (fun ex => decide (ex.router_uri = router)) then lr
      else lr ++ [info]) loop_routers) []

/-- The issue dict built for one discovered cycle of 3 or more networks
in `check_network_loops`: `loop_size` is the cycle length, the severity is
the literal `'critical'`, and the causing routers are looked up per cycle
edge. -/
def nl_issue_for (cycle : List String) (router_connections : List (String × List String)) :
    NlIssue :=
  let n := cycle.length
  ⟨"network-loops", "critical", s!"Network loop detected involving {n} networks", n,
   cycle, cycle, find_routers_in_loop cycle router_connections, "high",
   "Remove redundant routing connections or implement spanning tree protocol"⟩

/-- `check_network_loops` (network_loops.py): special-cases 2-network
mutual routing, otherwise reports each discovered cycle of 3 or more
networks as one critical finding. Returns
`(issues, affected_triples, affected_nodes)` — a 3-tuple, with
`affected_triples` always empty. -/
def check_network_loops (g : RdfGraph) (_verbose : Bool) :
    List NlIssue × List Triple × List String :=
  let br := build_network_graph_with_routers g
  let network_graph := br.1
  let router_connections := br.2
  if network_graph = [] ∨ network_graph.length < 2 then ([], [], [])
  else if network_graph.length = 2 then
    let networks := network_graph.map (·.1)
    let net1 := networks.headD ""
    let net2 := (networks.drop 1).headD ""
    if net2 ∈ dictGetD network_graph net1 [] ∧ net1 ∈ dictGetD network_graph net2 [] then
      let loop_routers := find_routers_in_loop [net1, net2] router_connections
      let issue : NlIssue :=
        ⟨"network-loops", "critical", "Network loop detected involving 2 networks", 2,
         [net1, net2, net1], [net1, net2], loop_routers, "high",
         "Remove redundant routing connections or implement spanning tree protocol"⟩
      ([issue], [], insertAll [] [net1, net2])
    else ([], [], [])
  else
    let cycles := find_cycles_union_find network_graph
    let r := cycles.foldl (fun (acc : List NlIssue × List String) cycle =>
      if cycle.length ≥ 3 then
        (acc.1 ++ [nl_issue_for cycle router_connections], insertAll acc.2 cycle)
      else acc) ([], [])
    (r.1, [], r.2)

/-! ## unreachable_networks.py -/

/-- An issue dict produced by `check_unreachable_networks`;
`island_networks` is only present for `partial` findings and
`verbose_description` only in verbose mode. -/
structure UnIssue where
  issue_type : String
  severity : String
  network : String
  network_name : String
  isolation_type : String
  description : String
  total_networks : Nat
  reachable_networks : Nat
  network_islands : Nat
  island_networks : Option (List String)
  verbose_description : Option String
deriving DecidableEq

/-- `_get_network_name` (unreachable_networks.py): label, then
`network-number`, then the last URI segment. -/
def un_get_network_name (g : RdfGraph) (network : String) : String :=
  match firstObject g network rdfsLabel with
  | some l => l
  | none =>
    match firstObject g network (bacnet "network-number") with
    | some n => s!"Network {n}"
    | none => lastSegment network

/-- Total size of all connection lists; bounds the number of BFS queue
insertions. -/
def connSize (conns : List (String × List String)) : Nat :=
  conns.foldl (fun a e => a + e.2.length) 0

/-- `get_reachable_networks` (nested in `check_unreachable_networks`): BFS
over the connectivity map from one start network. Every recursion step
pops one queue element and at most `connSize conns` elements are ever
pushed after the initial one, so fuel `connSize conns + 2` never runs out. -/
def get_reachable_networks (conns : List (String × List String)) :
    Nat → List String → List String → List String → List String
  | 0, _, _, reachable => reachable
  | fuel + 1, queue, visited, reachable =>
    match queue with
    | [] => reachable
    | current :: rest =>
      if current ∈ visited then get_reachable_networks conns fuel rest visited reachable
      else
        let visited' := insertNew visited current
        let reachable' := insertNew reachable current
        let rest' := rest ++ (dictGetD conns current []).filter (fun c => decide (c ∉ visited'))
        get_reachable_networks conns fuel rest' visited' reachable'

/-- `check_unreachable_networks` (unreachable_networks.py). The
connectivity map is built from routers' `device-on-network` and
`device-on-subnet` → `subnet-of-network` memberships only (the source
never consults `serves-network` here); islands are the BFS-reachable sets.
The source's `router_network_map` local is written but never read and is
omitted. -/
def check_unreachable_networks (g : RdfGraph) (verbose : Bool) : List UnIssue × List String :=
  let networks0 := (triplesQ g none (some rdfType) (some (bacnet "BACnetNetwork"))).foldl
    (fun s t => insertNew s t.s) []
  let routers := (triplesQ g none (some rdfType) (some (bacnet "Router"))).foldl
    (fun s t => insertNew s t.s) []
  if networks0.length < 2 then ([], [])
  else
    let rp := routers.foldl (fun (st : List String × List (String × List String)) router =>
      let p1 := (objectsQ g router (bacnet "device-on-network")).foldl
        (fun (q : List String × List String) network =>
          (insertNew q.1 network, insertNew q.2 network)) (([] : List String), st.1)
      let p2 := (objectsQ g router (bacnet "device-on-subnet")).foldl
        (fun q subnet =>
          (objectsQ g subnet (bacnet "subnet-of-network")).foldl
            (fun (q : List String × List String) network =>
              (insertNew q.1 network, insertNew q.2 network)) q) p1
      let router_networks := p2.1
      let conns := router_networks.foldl (fun c n1 =>
        router_networks.foldl (fun c n2 =>
          if n1 ≠ n2 then dictAddToSet c n1 n2 else c) c) st.2
      (p2.2, conns)) (networks0, [])
    let networks := rp.1
    let network_connections := rp.2
    let ir := networks.foldl (fun (st : List (List String) × List String) network =>
      if network ∈ st.2 then st
      else
        let reachable := get_reachable_networks network_connections
          (connSize network_connections + 2) [network] [] []
        (st.1 ++ [reachable], insertAll st.2 reachable)) ([], [])
    let network_islands := ir.1
    let total := networks.length
    let nIslands := network_islands.length
    if nIslands > 1 then
      network_islands.foldl (fun (acc : List UnIssue × List String) island =>
        if island.length = 1 then
          let network := island.headD ""
          let network_name := un_get_network_name g network
          let issue : UnIssue :=
            ⟨"unreachable-networks", "high", network, network_name, "isolated",
             s!"Network {network_name} is completely isolated with no routing connections",
             total, 0, nIslands, none,
             if verbose then
               let other_networks := network_islands.foldl (fun l other =>
                 if other ≠ island then l ++ other.map (un_get_network_name g) else l) []
               let o := other_networks.length
               let shown := joinWith ", " (other_networks.take 5)
               let ell := if o > 5 then "..." else ""
               let t1 := total - 1
               some (s!"Network {network_name} is completely isolated and cannot communicate with " ++
                 s!"{t1} other networks in the system: {shown}{ell}. " ++
                 "This network needs router connections to enable inter-network communication.")
             else none⟩
          (acc.1 ++ [issue], acc.2 ++ [network])
        else
          let island_names := island.map (un_get_network_name g)
          island.foldl (fun (acc : List UnIssue × List String) network =>
            let network_name := un_get_network_name g network
            let unreachable_count := total - island.length
            let reach := island.length - 1
            let issue : UnIssue :=
              ⟨"unreachable-networks", "high", network, network_name, "partial",
               s!"Network {network_name} cannot reach {unreachable_count} other networks",
               total, reach, nIslands, some island,
               if verbose then
                 let reachable_names := island_names.filter (fun n => decide (n ≠ network_name))
                 let unreachable_networks := network_islands.foldl (fun l other =>
                   if other ≠ island then l ++ other.map (un_get_network_name g) else l) []
                 let rn := reachable_names.length
                 let shownR := joinWith ", " (reachable_names.take 3)
                 let ellR := if rn > 3 then "..." else ""
                 let un := unreachable_networks.length
                 let shownU := joinWith ", " (unreachable_networks.take 3)
                 let ellU := if un > 3 then "..." else ""
                 some (s!"Network {network_name} can only reach {rn} networks " ++
                   s!"({shownR}{ellR}) " ++
                   s!"but cannot reach {unreachable_count} other networks: " ++
                   s!"{shownU}{ellU}. " ++
                   "Additional router connections are needed to bridge network islands.")
               else none⟩
            (acc.1 ++ [issue], acc.2 ++ [network])) acc) ([], [])
    else ([], [])

/-! ## oversized_networks.py -/

/-- The `device_breakdown` dict attached to oversized-network issues in
verbose mode. -/
structure DeviceBreakdown where
  total_devices : Nat
  device_types : List (String × Nat)
  sample_devices : List String
  truncated : Bool
deriving DecidableEq

/-- An issue dict produced by `check_oversized_networks`; the `details`
dict is flattened into the threshold/impact/recommendation/breakdown
fields. -/
structure OszIssue where
  issue_type : String
  severity : String
  network : String
  network_name : String
  network_type : String
  device_count : Nat
  threshold : Nat
  description : String
  warning_threshold : Nat
  critical_threshold : Nat
  performance_impact : String
  recommendation : String
  device_breakdown : Option DeviceBreakdown
  verbose_description : Option String
deriving DecidableEq

/-- `_get_network_name` (oversized_networks.py); textually the same
label → `network-number` → URI-segment fallback as the unreachable-networks
helper. -/
def osz_get_network_name (g : RdfGraph) (network : String) : String :=
  un_get_network_name g network

/-- Address classification inside method 4 of `_detect_network_type`:
`(counts as IP-like, counts as small-integer MSTP-like)`. Note the source
builds `all([0 <= int(p) <= 255 ...])` but discards the boolean — only a
`ValueError` from `int(p)` rejects the address — so any 4-part
dot-separated string of integers counts as IP-shaped. -/
def classify_addr (addr : String) : Bool × Bool :=
  let ipHit :=
    if strHasSub addr "." ∧ addr.toList.any (·.isDigit) then
      let parts := strSplit addr '.'
      if parts.length = 4 then
        parts.all (fun p => (pyInt p).isSome)
      else if strHasSub addr ":" then
        let ip_part := (strSplit addr ':').headD ""
        let parts2 := strSplit ip_part '.'
        if parts2.length = 4 then parts2.all (fun p => (pyInt p).isSome) else false
      else false
    else false
  if ipHit then (true, false)
  else
    let numHit : Bool := decide (addr ≠ "") && addr.toList.all (·.isDigit) &&
      (match pyInt addr with
       | some n => decide (1 ≤ n ∧ n ≤ 127)
       | none => false)
    (false, numHit)

/-- `_detect_network_type`: explicit `network-type` property, then label
keywords, then URI keywords, then the sampled device-address heuristic,
defaulting to `"other"`. Device-set iteration order for the address sample
is the set's insertion order. -/
def detect_network_type (g : RdfGraph) (network : String) (devices : List String) : String :=
  let m1 := (objectsQ g network (bacnet "network-type")).foldl (fun acc tv =>
    match acc with
    | some r => some r
    | none =>
      let ts := strLower tv
      if strHasSub ts "mstp" || strHasSub ts "master-slave" || strHasSub ts "token-passing" then
        some "mstp"
      else if strHasSub ts "ip" || strHasSub ts "ethernet" || strHasSub ts "bacnet/ip" then
        some "ip"
      else if strHasSub ts "arcnet" then some "arcnet"
      else if strHasSub ts "ptp" || strHasSub ts "point-to-point" then some "ptp"
      else none) none
  match m1 with
  | some r => r
  | none =>
  let m2 := (objectsQ g network rdfsLabel).foldl (fun acc lv =>
    match acc with
    | some r => some r
    | none =>
      let ls := strLower lv
      if strHasSub ls "mstp" || strHasSub ls "master-slave" || strHasSub ls "token" then
        some "mstp"
      else if strHasSub ls "ip" || strHasSub ls "ethernet" || strHasSub ls "tcp" then some "ip"
      else if strHasSub ls "arcnet" then some "arcnet"
      else if strHasSub ls "ptp" || strHasSub ls "point-to-point" then some "ptp"
      else none) none
  match m2 with
  | some r => r
  | none =>
  let nu := strLower network
  if strHasSub nu "mstp" || strHasSub nu "master-slave" then "mstp"
  else if strHasSub nu "ip" || strHasSub nu "ethernet" then "ip"
  else if strHasSub nu "arcnet" then "arcnet"
  else if strHasSub nu "ptp" then "ptp"
  else
    let device_addresses := devices.foldl
      (fun l device => l ++ objectsQ g device (bacnet "address")) []
    if device_addresses ≠ [] then
      let counts := (device_addresses.take 10).foldl (fun (c : Nat × Nat) addr =>
        let r := classify_addr addr
        (c.1 + (if r.1 then 1 else 0), c.2 + (if r.2 then 1 else 0))) (0, 0)
      if counts.1 > counts.2 then "ip"
      else if counts.2 > 0 ∧ counts.2 ≥ counts.1 then "mstp"
      else "other"
    else "other"

/-- `_get_thresholds_for_type`: the `(warning, critical)` device-count
thresholds table, defaulting to the `other` entry. -/
def get_thresholds_for_type (network_type : String) : Nat × Nat :=
  if network_type = "mstp" then (15, 30)
  else if network_type = "ip" then (50, 100)
  else if network_type = "ethernet" then (50, 100)
  else if network_type = "arcnet" then (15, 25)
  else if network_type = "ptp" then (2, 3)
  else (25, 50)

/-- `_get_recommendation`: network-type-aware remediation text. The
source's `warning_threshold//1.5` float division is rendered as
`2 * w / 3` in natural numbers, exact for every threshold in the table. -/
def get_recommendation (device_count : Nat) (network_type : String)
    (warning_threshold critical_threshold : Nat) : String :=
  let halfW := warning_threshold / 2
  if network_type = "mstp" then
    if device_count ≥ critical_threshold then
      s!"CRITICAL: MSTP networks with {device_count} devices severely impact token passing performance. " ++
      "Immediately segment this network. MSTP best practices recommend max 15-20 devices per segment. " ++
      "Consider splitting into multiple MSTP segments or migrating high-traffic devices to IP networks. " ++
      "Token circulation time increases exponentially with device count."
    else
      s!"MSTP network approaching capacity limits. Consider segmentation before reaching {critical_threshold} devices. " ++
      "MSTP token-passing protocol becomes increasingly inefficient with more devices. " ++
      "Monitor response times and consider splitting the network if delays are observed."
  else if network_type = "ip" then
    if device_count ≥ critical_threshold then
      s!"Immediately segment this IP network. Consider implementing VLANs or subnets with {halfW}-{warning_threshold} devices each. " ++
      "Use routers to connect segments and implement BBMD (BACnet Broadcast Management Device) " ++
      "to control broadcast traffic across network boundaries."
    else
      let w15 := 2 * warning_threshold / 3
      s!"Consider segmenting this IP network before reaching {critical_threshold} devices. " ++
      s!"Target {halfW}-{w15} devices per subnet for optimal performance. " ++
      "Monitor broadcast traffic and network response times."
  else if network_type = "ptp" then
    "Point-to-Point networks should only have 2 devices. " ++
    s!"Current configuration with {device_count} devices indicates a network topology issue. " ++
    "Verify network configuration and consider using a different network type."
  else
    if device_count ≥ critical_threshold then
      "Network has reached critical device density. Implement network segmentation immediately. " ++
      s!"Consider splitting into segments with {halfW}-{warning_threshold} devices each. " ++
      "Use appropriate routing/bridging based on the physical network type."
    else
      s!"Monitor network performance and consider segmentation as device count approaches {critical_threshold}. " ++
      s!"Network type '{network_type}' may have specific constraints - consult vendor documentation."

/-- `_get_device_breakdown` for verbose mode. -/
def get_device_breakdown (devices : List String) : DeviceBreakdown :=
  let device_list := devices.map lastSegment
  ⟨devices.length, [("BACnetDevice", devices.length)], device_list.take 10,
   decide (device_list.length > 10)⟩

/-- Per-network loop body of `check_oversized_networks`: detect the type,
look up its thresholds and classify the device count (critical at or above
the critical threshold, warning at or above the warning threshold,
otherwise no issue). -/
def oversized_body (g : RdfGraph) (verbose : Bool) (network : String)
    (devices : List String) : Option OszIssue :=
  let device_count := devices.length
  let network_type := detect_network_type g network devices
  let th := get_thresholds_for_type network_type
  let warning_threshold := th.1
  let critical_threshold := th.2
  let cls :=
    if device_count ≥ critical_threshold then
      some ("critical", "severe",
        s!"{strUpper network_type} network has {device_count} devices (critically high - performance severely impacted)",
        "oversized-networks-critical", critical_threshold)
    else if device_count ≥ warning_threshold then
      some ("warning", "moderate",
        s!"{strUpper network_type} network has {device_count} devices (high - performance may be impacted)",
        "oversized-networks-warning", warning_threshold)
    else none
  match cls with
  | none => none
  | some (severity, performance_impact, description, issue_type, threshold) =>
    let network_name := osz_get_network_name g network
    let tU := strUpper network_type
    some ⟨issue_type, severity, network, network_name, network_type, device_count, threshold,
      description, warning_threshold, critical_threshold, performance_impact,
      get_recommendation device_count network_type warning_threshold critical_threshold,
      if verbose then some (get_device_breakdown devices) else none,
      if verbose then
        some (s!"{tU} network {network_name} contains {device_count} devices, which exceeds " ++
          s!"BACnet best practice recommendations for {tU} networks (>{warning_threshold}). " ++
          s!"{tU} networks with more than {warning_threshold} devices can experience " ++
          "increased broadcast traffic, slower response times, and potential network congestion. " ++
          "Consider segmenting this network or implementing additional subnets to improve performance.")
      else none⟩

/-- `check_oversized_networks` (oversized_networks.py): count each typed
network's unique devices (directly on the network or on one of its
subnets) and apply the type-aware thresholds. -/
def check_oversized_networks (g : RdfGraph) (verbose : Bool) : List OszIssue × List String :=
  let networks := (triplesQ g none (some rdfType) (some (bacnet "BACnetNetwork"))).foldl
    (fun s t => insertNew s t.s) []
  if networks = [] then ([], [])
  else
    let counts1 := (triplesQ g none (some (bacnet "device-on-network")) none).foldl
      (fun m t => if t.o ∈ networks then dictAddToSet m t.o t.s else m) []
    let counts := (triplesQ g none (some (bacnet "device-on-subnet")) none).foldl
      (fun m t => (objectsQ g t.o (bacnet "subnet-of-network")).foldl
        (fun m network => if network ∈ networks then dictAddToSet m network t.s else m) m)
      counts1
    counts.foldl (fun (acc : List OszIssue × List String) entry =>
      match oversized_body g verbose entry.1 entry.2 with
      | some issue => (acc.1 ++ [issue], insertNew acc.2 entry.1)
      | none => acc) ([], [])

/-! ## subnet_mismatches.py -/

/-- One octet of a dotted-quad IPv4 string: one to three decimal digits,
no leading zero (Python's `ipaddress` rejects them), value at most 255. -/
def parseOctet (s : String) : Option Nat :=
  let cs := s.toList
  if cs ≠ [] ∧ cs.length ≤ 3 ∧ cs.all (·.isDigit) ∧ ¬(cs.length > 1 ∧ cs.headD '0' = '0') then
    let v := digitsVal cs
    if v ≤ 255 then some v else none
  else none

/-- `ipaddress.ip_address(s)` restricted to IPv4 (the repository's data
model; IPv6 literals are out of scope of this embedding), as the 32-bit
numeric value, `none` where Python raises. -/
def ip_address_parse (s : String) : Option Nat :=
  match strSplit s '.' with
  | [a, b, c, d] =>
    match parseOctet a, parseOctet b, parseOctet c, parseOctet d with
    | some x, some y, some z, some w => some (((x * 256 + y) * 256 + z) * 256 + w)
    | _, _, _, _ => none
  | _ => none

/-- `ipaddress.ip_network(s, strict=False)` restricted to IPv4 with an
integer prefix (dotted-netmask forms are not modelled):
`(network address with host bits masked off, prefix length)`. -/
def ip_network_parse (s : String) : Option (Nat × Nat) :=
  match strSplit s '/' with
  | [addr] => (ip_address_parse addr).map (fun a => (a, 32))
  | [addr, plenStr] =>
    match ip_address_parse addr with
    | none => none
    | some a =>
      let cs := plenStr.toList
      if cs ≠ [] ∧ cs.all (·.isDigit) then
        let p := digitsVal cs
        if p ≤ 32 then some ((a / 2 ^ (32 - p)) * 2 ^ (32 - p), p)
        else none
      else none
  | _ => none

/-- `_is_ip_in_subnet` (subnet_mismatches.py): membership of the address
in the CIDR range; any parse failure takes the `except` branch and returns
`True` (treat as valid / skip validation). -/
def _is_ip_in_subnet (ip_address subnet_cidr : String) : Bool :=
  match ip_address_parse ip_address, ip_network_parse subnet_cidr with
  | some ip, some np => decide ((ip / 2 ^ (32 - np.2)) * 2 ^ (32 - np.2) = np.1)
  | _, _ => true

/-- The per-subnet entry built by the first pass of
`check_subnet_mismatches`. -/
structure SubnetData where
  address : String
  label : String
  network : Option String
deriving DecidableEq

/-- An issue dict produced by `check_subnet_mismatches`. -/
structure SmIssue where
  issue_type : String
  severity : String
  message : String
  description : String
  device : String
  device_label : String
  device_instance : Option String
  device_address : String
  subnet : String
  subnet_label : String
  subnet_address : String
  verbose_details : Option String
deriving DecidableEq

/-- First pass of `check_subnet_mismatches`: map each typed `Subnet` with
a truthy `subnet-address` to its address/label/parent network. The
source's extraction loops have no `break`, so the last matching triple
wins. -/
def subnet_info_build (g : RdfGraph) : List (String × SubnetData) :=
  (subjectsQ g rdfType (bacnet "Subnet")).foldl (fun m subnet =>
    let subnet_address := lastObject g subnet (bacnet "subnet-address")
    let subnet_label := (lastObject g subnet rdfsLabel).getD subnet
    if truthy subnet_address then
      let network := lastObject g subnet (bacnet "subnet-of-network")
      dictSet m subnet ⟨subnet_address.getD "", subnet_label, network⟩
    else m) []

/-- Per-device loop body of `check_subnet_mismatches`: only devices with a
truthy address and a subnet assignment present in `subnet_info` are
checked; a device whose address is not inside its subnet's range yields
one medium finding. -/
def subnet_mismatch_body (g : RdfGraph) (verbose : Bool)
    (subnet_info : List (String × SubnetData)) (device : String) :
    List SmIssue × List String :=
  let device_address := lastObject g device (bacnet "address")
  let device_label := (lastObject g device rdfsLabel).getD device
  let device_instance := lastObject g device (bacnet "device-instance")
  let device_subnet := lastObject g device (bacnet "device-on-subnet")
  match device_subnet with
  | none => ([], [])
  | some dsn =>
    if ¬ truthy device_address then ([], [])
    else
      match dictGet? subnet_info dsn with
      | none => ([], [])
      | some data =>
        let addr := device_address.getD ""
        if ¬ _is_ip_in_subnet addr data.address then
          let instShow := match device_instance with | some s => s | none => "None"
          let issue : SmIssue :=
            ⟨"subnet-mismatches", "medium",
             s!"Device IP address {addr} does not match subnet {data.address}",
             "Device IP address is outside the range of its assigned subnet. " ++
               "This can cause routing issues and communication failures.",
             device, device_label, device_instance, addr, dsn, data.label, data.address,
             if verbose then
               let network_label :=
                 match data.network with
                 | some n =>
                   (match firstObject g n rdfsLabel with
                    | some l => if l = "Unknown" then n else l
                    | none => n)
                 | none => "Unknown"
               some (s!"Device \"{device_label}\" (instance {instShow}) has IP {addr} " ++
                 s!"but is assigned to subnet {data.address}. Network: {network_label}")
             else none⟩
          ([issue], [device])
        else ([], [])

/-- `check_subnet_mismatches` (subnet_mismatches.py). -/
def check_subnet_mismatches (g : RdfGraph) (verbose : Bool) : List SmIssue × List String :=
  let subnet_info := subnet_info_build g
  (subjectsQ g rdfType (bacnet "Device")).foldl (fun acc d =>
    let r := subnet_mismatch_body g verbose subnet_info d
    (acc.1 ++ r.1, acc.2 ++ r.2)) ([], [])

/-! ## routing_inefficiencies.py (the parts the claims depend on) -/

/-- The dict returned by `_build_routing_graph`. `all_routers` and
`all_networks` are the deduplicated router/network lists passed in (the
source's string-cast of the same sets). -/
structure RoutingGraph where
  routers : List (String × List String)
  router_serves : List (String × List String)
  network_routers : List (String × List String)
  network_connections : List (String × List String)
  all_routers : List String
  all_networks : List String
deriving DecidableEq

/-- `_build_routing_graph`: per-router `device-on-network` /
`serves-network` memberships (restricted to known networks) and the
derived network connectivity map, into which every `on → served` edge is
inserted together with its reverse `served → on` edge. -/
def build_routing_graph (g : RdfGraph) (routers networks : List String) : RoutingGraph :=
  let st := routers.foldl
    (fun (st : List (String × List String) × List (String × List String) ×
          List (String × List String)) router =>
      let p1 := (objectsQ g router (bacnet "device-on-network")).foldl
        (fun (p : List (String × List String) × List (String × List String)) network =>
          if network ∈ networks then
            (dictAddToSet p.1 router network, dictAddToSet p.2 network router)
          else p) (st.1, st.2.1)
      let serves := (objectsQ g router (bacnet "serves-network")).foldl
        (fun m network => if network ∈ networks then dictAddToSet m router network else m)
        st.2.2
      (p1.1, p1.2, serves)) ([], [], [])
  let router_networks := st.1
  let network_routers := st.2.1
  let router_serves := st.2.2
  let network_connections := router_networks.foldl (fun conns entry =>
    let served_networks := dictGetD router_serves entry.1 []
    entry.2.foldl (fun conns on_network =>
      served_networks.foldl (fun conns served_network =>
        if on_network ≠ served_network then
          dictAddToSet (dictAddToSet conns on_network served_network) served_network on_network
        else conns) conns) conns) []
  ⟨router_networks, router_serves, network_routers, network_connections, routers, networks⟩

/-- An issue dict produced by `_check_asymmetric_routing`; the `details`
dict is flattened. -/
structure ArIssue where
  issue_type : String
  severity : String
  source_network : String
  target_network : String
  description : String
  networks : List String
  routing_direction : String
  missing_direction : String
  recommendation : String
  connectivity_risk : String
  verbose_description : Option String
deriving DecidableEq

/-- `_check_asymmetric_routing`: collect every directed connection
`A → B` whose reverse `B → A` is missing from the connectivity map and
report each as a warning. -/
def check_asymmetric_routing (rg : RoutingGraph) (verbose : Bool) : List ArIssue :=
  let asymmetric_pairs := rg.network_connections.foldl
    (fun (pairs : List (String × String)) entry =>
      entry.2.foldl (fun pairs network_b =>
        let reverse_connections := dictGetD rg.network_connections network_b []
        if entry.1 ∉ reverse_connections then pairs ++ [(entry.1, network_b)] else pairs)
        pairs) []
  asymmetric_pairs.map (fun pr =>
    let na := lastSegment pr.1
    let nb := lastSegment pr.2
    ⟨"asymmetric-routing", "warning", pr.1, pr.2,
     s!"Asymmetric routing: {na} can reach {nb} but not vice versa",
     [pr.1, pr.2], pr.1 ++ " -> " ++ pr.2, pr.2 ++ " -> " ++ pr.1,
     "Verify router configurations to ensure bidirectional connectivity",
     "Partial network reachability may cause communication failures",
     if verbose then
       some (s!"Asymmetric routing detected between {na} " ++
         s!"and {nb}. Traffic can flow from " ++
         s!"{na} to {nb} " ++
         "but the reverse path is not configured, which may cause communication failures.")
     else none⟩)

/-! ## registry.py

The registry stores each check's Python function object and deduplicates
execution by `id(function)`. Function identity is modelled by the `FnId`
enumeration (one constructor per distinct check function), and the actual
function behaviour is a table `sem : FnId → RdfGraph → Bool → FnRet`
passed to `execute_checks`; the `sem_check_*` wrappers below are the
table entries for the analyzers embedded in this file. `FnRet` records
the returned tuple's arity, because Python's
`issues, affected_triples = function(graph, verbose)` raises `ValueError`
when the function returns a 3-tuple. -/

/-- Identity of one of the fourteen distinct check functions imported by
registry.py. -/
inductive FnId
  | dupDeviceIds
  | dupNetworks
  | dupBbmds
  | orphanedDevices
  | invalidDeviceRanges
  | deviceAddressConflicts
  | missingVendorIds
  | unreachableNetworks
  | missingRouters
  | subnetMismatches
  | networkLoops
  | oversizedNetworks
  | broadcastDomains
  | routingInefficiencies
deriving DecidableEq

/-- One issue dict as seen by the registry: the sum of the per-analyzer
issue shapes embedded in this file. -/
inductive Finding
  | dupDev (i : DdIssue)
  | dupNet (i : DnIssue)
  | orphan (i : OrIssue)
  | range (i : IdrIssue)
  | addr (i : DacIssue)
  | vendor (i : MviIssue)
  | unreach (i : UnIssue)
  | netLoop (i : NlIssue)
  | oversized (i : OszIssue)
  | subnetMis (i : SmIssue)
  | asymmetric (i : ArIssue)
deriving DecidableEq

/-- `i.get('issue_type')`: the invalid-device-ranges and
device-address-conflicts dicts store their type under the key `type`, so
`get('issue_type')` yields `None` for them. -/
def Finding.issueTypeGet : Finding → Option String
  | .dupDev i => some i.issue_type
  | .dupNet i => some i.issue_type
  | .orphan i => some i.issue_type
  | .range _ => none
  | .addr _ => none
  | .vendor i => some i.issue_type
  | .unreach i => some i.issue_type
  | .netLoop i => some i.issue_type
  | .oversized i => some i.issue_type
  | .subnetMis i => some i.issue_type
  | .asymmetric i => some i.issue_type

/-- An element of the registry's heterogeneous `all_affected_triples`
accumulator: checks contribute either RDF nodes or whole triples. -/
inductive Affected
  | node (s : String)
  | triple (t : Triple)
deriving DecidableEq

/-- The tuple returned by one check function, tagged with its arity. -/
inductive FnRet
  | two (issues : List Finding) (affected : List Affected)
  | three (issues : List Finding) (x : List Affected) (y : List Affected)
deriving DecidableEq

/-- The Python exception aborting `execute_checks`: `ValueError` from
unpacking a 3-tuple into two variables. -/
inductive PyErr
  | valueError
deriving DecidableEq

/-- Table entry semantics for the embedded 2-tuple checks. -/
def sem_check_duplicate_device_ids (g : RdfGraph) (v : Bool) : FnRet :=
  let r := check_duplicate_device_ids g v
  .two (r.1.map .dupDev) (r.2.map .triple)

/-- Table entry for `check_duplicate_networks` (2-tuple). -/
def sem_check_duplicate_networks (g : RdfGraph) (v : Bool) : FnRet :=
  let r := check_duplicate_networks g v
  .two (r.1.map .dupNet) (r.2.map .triple)

/-- Table entry for `check_orphaned_devices` (2-tuple). -/
def sem_check_orphaned_devices (g : RdfGraph) (v : Bool) : FnRet :=
  let r := check_orphaned_devices g v
  .two (r.1.map .orphan) (r.2.map .node)

/-- Table entry for `check_invalid_device_ranges` (2-tuple). -/
def sem_check_invalid_device_ranges (g : RdfGraph) (v : Bool) : FnRet :=
  let r := check_invalid_device_ranges g v
  .two (r.1.map .range) (r.2.map .node)

/-- Table entry for `check_device_address_conflicts` (2-tuple). -/
def sem_check_device_address_conflicts (g : RdfGraph) (v : Bool) : FnRet :=
  let r := check_device_address_conflicts g v
  .two (r.1.map .addr) (r.2.map .node)

/-- Table entry for `check_missing_vendor_ids`: a 3-tuple
`(issues, affected_triples, affected_nodes)`. -/
def sem_check_missing_vendor_ids (g : RdfGraph) (v : Bool) : FnRet :=
  let r := check_missing_vendor_ids g v
  .three (r.1.map .vendor) (r.2.1.map .triple) (r.2.2.map .node)

/-- Table entry for `check_unreachable_networks` (2-tuple). -/
def sem_check_unreachable_networks (g : RdfGraph) (v : Bool) : FnRet :=
  let r := check_unreachable_networks g v
  .two (r.1.map .unreach) (r.2.map .node)

/-- Table entry for `check_network_loops`: a 3-tuple. -/
def sem_check_network_loops (g : RdfGraph) (v : Bool) : FnRet :=
  let r := check_network_loops g v
  .three (r.1.map .netLoop) (r.2.1.map .triple) (r.2.2.map .node)

/-- Table entry for `check_oversized_networks` (2-tuple). -/
def sem_check_oversized_networks (g : RdfGraph) (v : Bool) : FnRet :=
  let r := check_oversized_networks g v
  .two (r.1.map .oversized) (r.2.map .node)

/-- Table entry for `check_subnet_mismatches` (2-tuple). -/
def sem_check_subnet_mismatches (g : RdfGraph) (v : Bool) : FnRet :=
  let r := check_subnet_mismatches g v
  .two (r.1.map .subnetMis) (r.2.map .node)

/-- Metadata of one `self._checks` entry. -/
structure CatEntry where
  fn : FnId
  description : String
  category : String
  single_check : Bool
  related_types : List String
deriving DecidableEq

/-- The `CheckRegistry._checks` catalog, in dict insertion order. -/
def registry_checks : List (String × CatEntry) :=
  [("duplicate-device-id",
    ⟨.dupDeviceIds, "Detect devices with same ID across different networks/subnets",
     "device-conflicts", true, []⟩),
   ("orphaned-devices",
    ⟨.orphanedDevices, "Detect devices not connected to any network or subnet",
     "connectivity", true, []⟩),
   ("invalid-device-ranges",
    ⟨.invalidDeviceRanges, "Detect devices with instance IDs outside valid BACnet range (0-4194303)",
     "device-validation", true, []⟩),
   ("device-address-conflicts",
    ⟨.deviceAddressConflicts, "Detect devices with same address on same network/subnet",
     "device-conflicts", true, []⟩),
   ("missing-vendor-ids",
    ⟨.missingVendorIds, "Detect devices without vendor identification or invalid vendor formats",
     "device-validation", true, []⟩),
   ("unreachable-networks",
    ⟨.unreachableNetworks, "Detect networks isolated without routing paths to other networks",
     "network-topology", true, []⟩),
   ("missing-routers",
    ⟨.missingRouters, "Detect multi-network setups without proper routing infrastructure",
     "network-topology", true, []⟩),
   ("network-loops",
    ⟨.networkLoops, "Detect circular routing dependencies that can cause broadcast storms",
     "network-topology", true, []⟩),
   ("subnet-mismatches",
    ⟨.subnetMismatches, "Detect devices with IP addresses outside their configured subnet ranges",
     "network-topology", true, []⟩),
   ("oversized-networks",
    ⟨.oversizedNetworks, "Detect networks with too many devices that can impact performance",
     "network-performance", false,
     ["oversized-networks-warning", "oversized-networks-critical"]⟩),
   ("oversized-networks-warning",
    ⟨.oversizedNetworks, "Detect networks with moderately high device counts (performance warning)",
     "network-performance", false, ["oversized-networks", "oversized-networks-critical"]⟩),
   ("oversized-networks-critical",
    ⟨.oversizedNetworks, "Detect networks with critically high device counts (severe performance impact)",
     "network-performance", false, ["oversized-networks", "oversized-networks-warning"]⟩),
   ("duplicate-network",
    ⟨.dupNetworks, "Detect network numbers on routers in different subnets",
     "network-topology", false, ["duplicate-router"]⟩),
   ("duplicate-router",
    ⟨.dupNetworks, "Detect network numbers on multiple routers in same subnet",
     "network-topology", false, ["duplicate-network"]⟩),
   ("duplicate-bbmd-warning",
    ⟨.dupBbmds, "Detect multiple BBMDs on same subnet (not all have BDT entries)",
     "bbmd-configuration", false, ["duplicate-bbmd-error"]⟩),
   ("duplicate-bbmd-error",
    ⟨.dupBbmds, "Detect multiple BBMDs with BDT entries on same subnet",
     "bbmd-configuration", false, ["duplicate-bbmd-warning"]⟩),
   ("broadcast-domain-warning",
    ⟨.broadcastDomains, "Detect large broadcast domains that may impact performance",
     "network-performance", false,
     ["broadcast-domain-critical", "missing-bbmd-coverage", "broadcast-domain-overlap"]⟩),
   ("broadcast-domain-critical",
    ⟨.broadcastDomains, "Detect critically large broadcast domains causing severe performance impact",
     "network-performance", false,
     ["broadcast-domain-warning", "missing-bbmd-coverage", "broadcast-domain-overlap"]⟩),
   ("missing-bbmd-coverage",
    ⟨.broadcastDomains, "Detect complex broadcast domains lacking BBMD management",
     "bbmd-configuration", false,
     ["broadcast-domain-warning", "broadcast-domain-critical", "broadcast-domain-overlap"]⟩),
   ("broadcast-domain-overlap",
    ⟨.broadcastDomains, "Detect overlapping broadcast domains that may cause conflicts",
     "network-topology", false,
     ["broadcast-domain-warning", "broadcast-domain-critical", "missing-bbmd-coverage"]⟩),
   ("routing-loop",
    ⟨.routingInefficiencies, "Detect routing loops that cause packet circulation and instability",
     "routing-topology", false,
     ["suboptimal-routing-path", "router-single-point-failure", "asymmetric-routing",
      "missing-redundancy"]⟩),
   ("suboptimal-routing-path",
    ⟨.routingInefficiencies, "Detect inefficient routing paths with excessive hops",
     "routing-performance", false,
     ["routing-loop", "router-single-point-failure", "asymmetric-routing",
      "missing-redundancy"]⟩),
   ("router-single-point-failure",
    ⟨.routingInefficiencies, "Detect routers that represent single points of failure",
     "routing-reliability", false,
     ["routing-loop", "suboptimal-routing-path", "asymmetric-routing", "missing-redundancy"]⟩),
   ("asymmetric-routing",
    ⟨.routingInefficiencies, "Detect asymmetric routing configurations causing connectivity issues",
     "routing-topology", false,
     ["routing-loop", "suboptimal-routing-path", "router-single-point-failure",
      "missing-redundancy"]⟩),
   ("missing-redundancy",
    ⟨.routingInefficiencies, "Detect networks lacking redundant routing paths",
     "routing-reliability", false,
     ["routing-loop", "suboptimal-routing-path", "router-single-point-failure",
      "asymmetric-routing"]⟩)]

/-- `CheckRegistry.get_all_issue_types`. -/
def get_all_issue_types : List String := registry_checks.map (·.1)

/-- `CheckRegistry.get_cli_choices`. -/
def get_cli_choices : List String := get_all_issue_types ++ ["all"]

/-- `CheckRegistry.get_issue_description`. -/
def get_issue_description (issue_type : String) : String :=
  match dictGet? registry_checks issue_type with
  | some info => info.description
  | none => "Unknown issue type"

/-- `CheckRegistry.resolve_issues_to_check`. -/
def resolve_issues_to_check (requested_issue : String) : List String :=
  if requested_issue = "all" then get_all_issue_types
  else
    match dictGet? registry_checks requested_issue with
    | some check_info =>
      if check_info.single_check then [requested_issue]
      else requested_issue :: check_info.related_types
    | none => [requested_issue]

/-- `CheckRegistry.is_single_check`. -/
def is_single_check (issue_type : String) : Bool :=
  match dictGet? registry_checks issue_type with
  | some info => info.single_check
  | none => true

/-- The value returned by `execute_checks`, extended with the
instrumentation field `call_log` recording each actual invocation of a
check function (the mock-call-counter the spec asks tests to use). -/
structure ExecResult where
  all_issues : List (String × List Finding)
  all_affected_triples : List Affected
  call_log : List FnId
deriving DecidableEq

/-- The loop of `CheckRegistry.execute_checks` over `issues_to_check`,
carrying `(all_issues, all_affected_triples, executed_functions,
call_log)`. Unpacking a 3-tuple return into
`issues, affected_triples = ...` raises `ValueError` and aborts the whole
call. -/
def exec_go (sem : FnId → RdfGraph → Bool → FnRet) (g : RdfGraph) (verbose : Bool) :
    List String → List (String × List Finding) → List Affected → List FnId → List FnId →
    Except PyErr ExecResult
  | [], ai, aff, _ex, log => .ok ⟨ai, aff, log⟩
  | issue_type :: rest, ai, aff, ex, log =>
    match dictGet? registry_checks issue_type with
    | none => exec_go sem g verbose rest ai aff ex log
    | some check_info =>
      if check_info.fn ∈ ex then exec_go sem g verbose rest ai aff ex log
      else
        match sem check_info.fn g verbose with
        | .three _ _ _ => .error .valueError
        | .two issues affected_triples =>
          let ai' :=
            if check_info.single_check then dictSet ai issue_type issues
            else
              (issue_type :: check_info.related_types).foldl (fun ai rt =>
                dictSet ai rt (issues.filter (fun i => decide (i.issueTypeGet = some rt)))) ai
          exec_go sem g verbose rest ai' (aff ++ affected_triples)
            (ex ++ [check_info.fn]) (log ++ [check_info.fn])

/-- `CheckRegistry.execute_checks`, with the function table `sem` standing
for the catalog's `function` column. -/
def execute_checks (sem : FnId → RdfGraph → Bool → FnRet) (issues_to_check : List String)
    (g : RdfGraph) (verbose : Bool) : Except PyErr ExecResult :=
  exec_go sem g verbose issues_to_check [] [] [] []

/-- The function table populated with every analyzer embedded in this
file; the remaining four catalog functions (duplicate BBMDs, missing
routers, broadcast domains, routing inefficiencies) are mapped to a
trivial empty 2-tuple result. Used to instantiate the closed registry
statements below, whose keyed theorems constrain only the entries the
execution actually reaches. -/
def sem_table_embedded : FnId → RdfGraph → Bool → FnRet
  | .dupDeviceIds => sem_check_duplicate_device_ids
  | .dupNetworks => sem_check_duplicate_networks
  | .orphanedDevices => sem_check_orphaned_devices
  | .invalidDeviceRanges => sem_check_invalid_device_ranges
  | .deviceAddressConflicts => sem_check_device_address_conflicts
  | .missingVendorIds => sem_check_missing_vendor_ids
  | .unreachableNetworks => sem_check_unreachable_networks
  | .networkLoops => sem_check_network_loops
  | .oversizedNetworks => sem_check_oversized_networks
  | .subnetMismatches => sem_check_subnet_mismatches
  | _ => fun _ _ => .two [] []

/-! ## Concrete scenario graphs -/

/-- Five networks routed in a ring: router `rI` sits on network `nI` and
serves network `nI+1` (mod 5). The unique discovered cycle has 5
networks. -/
def c3_ring_graph : RdfGraph :=
  [⟨"bacnet://router/r1", rdfType, bacnet "Router"⟩,
   ⟨"bacnet://router/r1", bacnet "device-on-network", "bacnet://network/n1"⟩,
   ⟨"bacnet://router/r1", bacnet "serves-network", "bacnet://network/n2"⟩,
   ⟨"bacnet://router/r2", rdfType, bacnet "Router"⟩,
   ⟨"bacnet://router/r2", bacnet "device-on-network", "bacnet://network/n2"⟩,
   ⟨"bacnet://router/r2", bacnet "serves-network", "bacnet://network/n3"⟩,
   ⟨"bacnet://router/r3", rdfType, bacnet "Router"⟩,
   ⟨"bacnet://router/r3", bacnet "device-on-network", "bacnet://network/n3"⟩,
   ⟨"bacnet://router/r3", bacnet "serves-network", "bacnet://network/n4"⟩,
   ⟨"bacnet://router/r4", rdfType, bacnet "Router"⟩,
   ⟨"bacnet://router/r4", bacnet "device-on-network", "bacnet://network/n4"⟩,
   ⟨"bacnet://router/r4", bacnet "serves-network", "bacnet://network/n5"⟩,
   ⟨"bacnet://router/r5", rdfType, bacnet "Router"⟩,
   ⟨"bacnet://router/r5", bacnet "device-on-network", "bacnet://network/n5"⟩,
   ⟨"bacnet://router/r5", bacnet "serves-network", "bacnet://network/n1"⟩]

/-- Two typed BACnet networks joined only by a router that is on network
A (`device-on-network`) and serves network B (`serves-network`). -/
def c4_serves_graph : RdfGraph :=
  [⟨"bacnet://network/A", rdfType, bacnet "BACnetNetwork"⟩,
   ⟨"bacnet://network/B", rdfType, bacnet "BACnetNetwork"⟩,
   ⟨"bacnet://router/R", rdfType, bacnet "Router"⟩,
   ⟨"bacnet://router/R", bacnet "device-on-network", "bacnet://network/A"⟩,
   ⟨"bacnet://router/R", bacnet "serves-network", "bacnet://network/B"⟩]

/-- The same two networks joined by a router that is on both of them via
`device-on-network`. -/
def c4_joined_graph : RdfGraph :=
  [⟨"bacnet://network/A", rdfType, bacnet "BACnetNetwork"⟩,
   ⟨"bacnet://network/B", rdfType, bacnet "BACnetNetwork"⟩,
   ⟨"bacnet://router/R", rdfType, bacnet "Router"⟩,
   ⟨"bacnet://router/R", bacnet "device-on-network", "bacnet://network/A"⟩,
   ⟨"bacnet://router/R", bacnet "device-on-network", "bacnet://network/B"⟩]

/-- Two typed devices sharing one `device-instance` value `v`, the first
on network `n1`, the second on network `n2` (parameters allow the same or
different networks). -/
def c5_graph (d1 d2 n1 n2 v : String) : RdfGraph :=
  [⟨d1, rdfType, bacnet "Device"⟩,
   ⟨d1, bacnet "device-instance", v⟩,
   ⟨d1, bacnet "device-on-network", n1⟩,
   ⟨d2, rdfType, bacnet "Device"⟩,
   ⟨d2, bacnet "device-instance", v⟩,
   ⟨d2, bacnet "device-on-network", n2⟩]

/-- One typed device with one `device-instance` value. -/
def c6_graph (inst : String) : RdfGraph :=
  [⟨"urn:dev", rdfType, bacnet "Device"⟩,
   ⟨"urn:dev", bacnet "device-instance", inst⟩]

/-- Four boundary devices (instances 0, 4194303, -1, 4194304) plus one
device with no `device-instance` triple. -/
def c6_boundary_graph : RdfGraph :=
  [⟨"urn:d0", rdfType, bacnet "Device"⟩,
   ⟨"urn:d0", bacnet "device-instance", "0"⟩,
   ⟨"urn:dmax", rdfType, bacnet "Device"⟩,
   ⟨"urn:dmax", bacnet "device-instance", "4194303"⟩,
   ⟨"urn:dneg", rdfType, bacnet "Device"⟩,
   ⟨"urn:dneg", bacnet "device-instance", "-1"⟩,
   ⟨"urn:dover", rdfType, bacnet "Device"⟩,
   ⟨"urn:dover", bacnet "device-instance", "4194304"⟩,
   ⟨"urn:dnone", rdfType, bacnet "Device"⟩]

/-- One typed device carrying a `vendor-id` value. -/
def c7_graph (vendor : String) : RdfGraph :=
  [⟨"urn:dev", rdfType, bacnet "Device"⟩,
   ⟨"urn:dev", bacnet "vendor-id", vendor⟩]

/-- One typed device with no `vendor-id` triple. -/
def c7_absent_graph : RdfGraph :=
  [⟨"urn:dev", rdfType, bacnet "Device"⟩]

/-- A network whose `network-type` is `ty`, with 17 attached devices. -/
def c8_graph (ty : String) : RdfGraph :=
  ⟨"urn:net", rdfType, bacnet "BACnetNetwork"⟩ ::
  ⟨"urn:net", bacnet "network-type", ty⟩ ::
  (List.range 17).map (fun i => ⟨s!"urn:dev{i}", bacnet "device-on-network", "urn:net"⟩)

/-- A subnet with CIDR 192.168.1.0/24 holding one device with a BACnet
MAC-style address (unparseable as an IP) and one device with an IP
address outside the range. -/
def c9_graph : RdfGraph :=
  [⟨"urn:sub1", rdfType, bacnet "Subnet"⟩,
   ⟨"urn:sub1", bacnet "subnet-address", "192.168.1.0/24"⟩,
   ⟨"urn:dev1", rdfType, bacnet "Device"⟩,
   ⟨"urn:dev1", bacnet "address", "3:0x1a"⟩,
   ⟨"urn:dev1", bacnet "device-on-subnet", "urn:sub1"⟩,
   ⟨"urn:dev2", rdfType, bacnet "Device"⟩,
   ⟨"urn:dev2", bacnet "address", "10.0.0.5"⟩,
   ⟨"urn:dev2", bacnet "device-on-subnet", "urn:sub1"⟩]

/-- One router on network A serving network B, for exercising the routing
connectivity map. -/
def c10_graph : RdfGraph :=
  [⟨"urn:R", rdfType, bacnet "Router"⟩,
   ⟨"urn:R", bacnet "device-on-network", "urn:A"⟩,
   ⟨"urn:R", bacnet "serves-network", "urn:B"⟩]

/-- `g` with every `serves-network` triple removed; used to state that an
analyzer never consults that predicate. -/
def purgeServes (g : RdfGraph) : RdfGraph :=
  g.filter (fun t => decide (t.p ≠ bacnet "serves-network"))

/-! ## Theorems -/

theorem sameSetStr_comm (a b : List String) : sameSetStr a b = sameSetStr b a := by
  simp [sameSetStr, Bool.and_comm]

theorem nl_fold_issues (rc : List (String × List String)) (cycles : List (List String))
    (acc : List NlIssue × List String) :
    (cycles.foldl (fun (acc : List NlIssue × List String) cycle =>
      if cycle.length ≥ 3 then
        (acc.1 ++ [nl_issue_for cycle rc], insertAll acc.2 cycle)
      else acc) acc).1
      = acc.1 ++ (cycles.filter (fun c => decide (c.length ≥ 3))).map
          (fun c => nl_issue_for c rc) := by
  induction cycles generalizing acc with
  | nil => simp
  | cons c cs ih =>
    simp only [List.foldl_cons, List.filter_cons]
    by_cases h : c.length ≥ 3
    · simp [h, ih]
    · simp [h, ih]

theorem fcuf_step_pairwise (gr : List (String × List String))
    (st : List (List String) × List String) (n : String)
    (hst : st.1.Pairwise (fun a b => sameSetStr a b = false)) :
    ((fcuf_step gr st n).1).Pairwise (fun a b => sameSetStr a b = false) := by
  unfold fcuf_step
  by_cases hv : n ∈ st.2
  · simp only [if_pos hv]; exact hst
  · simp only [if_neg hv]
    by_cases h1 : dfs_cycle_detection gr n 6 n [] [] ≠ [] ∧
        (dfs_cycle_detection gr n 6 n [] []).length ≥ 3
    · simp only [if_pos h1]
      by_cases h2 : (st.1.any fun existing =>
          sameSetStr (fcuf_norm (dfs_cycle_detection gr n 6 n [] [])) existing) = true
      · simp only [if_pos h2]; exact hst
      · simp only [if_neg h2]
        rw [Bool.not_eq_true, List.any_eq_false] at h2
        rw [List.pairwise_append]
        refine ⟨hst, by simp, fun a ha b hb => ?_⟩
        rw [List.mem_singleton] at hb
        subst hb
        rw [sameSetStr_comm]
        simpa using h2 a ha
    · simp only [if_neg h1]; exact hst

theorem find_cycles_fold_pairwise (gr : List (String × List String)) (nodes : List String)
    (st : List (List String) × List String)
    (hst : st.1.Pairwise (fun a b => sameSetStr a b = false)) :
    ((nodes.foldl (fcuf_step gr) st).1).Pairwise (fun a b => sameSetStr a b = false) := by
  induction nodes generalizing st with
  | nil => exact hst
  | cons n ns ih =>
    rw [List.foldl_cons]
    exact ih _ (fcuf_step_pairwise gr st n hst)

theorem find_cycles_union_find_pairwise (gr : List (String × List String)) :
    (find_cycles_union_find gr).Pairwise (fun a b => sameSetStr a b = false) := by
  unfold find_cycles_union_find
  by_cases h : (gr.map (fun x => x.1)).length < 3
  · simp only [if_pos h]; exact List.Pairwise.nil
  · simp only [if_neg h]
    exact find_cycles_fold_pairwise gr _ ([], []) List.Pairwise.nil


/-- Claim C3 (as stated) is false on the code: on a five-network routed
ring, `check_network_loops` reports the unique 5-cycle with severity
`critical`, not `warning`, even though the cycle has more than 4
networks. -/
theorem claim3_counterexample :
    ((check_network_loops c3_ring_graph false).1.map fun i => (i.severity, i.loop_size))
        = [("critical", 5)]
    ∧ ¬ (∀ i ∈ (check_network_loops c3_ring_graph false).1,
          4 < i.loop_size → i.severity = "warning") := by
  constructor
  · decide
  · decide

/-- Claim C3, amended: for graphs whose router-derived adjacency has three
or more networks, `check_network_loops` reports exactly one finding per
unique discovered cycle, with `loop_size` equal to the number of networks
in the cycle, the contributing routers looked up for each edge of the
cycle, and severity `critical` regardless of the cycle's length (the
source never downgrades large cycles to `warning`); the discovered cycles
are pairwise distinct as sets. -/
theorem claim3_loop_findings (g : RdfGraph) (v : Bool)
    (h3 : 3 ≤ (build_network_graph_with_routers g).1.length) :
    (check_network_loops g v).1
      = ((find_cycles_union_find (build_network_graph_with_routers g).1).filter
          (fun c => decide (c.length ≥ 3))).map
          (fun c => nl_issue_for c (build_network_graph_with_routers g).2)
    ∧ (∀ i ∈ (check_network_loops g v).1,
        i.severity = "critical" ∧ i.loop_size = i.networks_in_loop.length ∧
        i.routers_causing_loop
          = find_routers_in_loop i.networks_in_loop (build_network_graph_with_routers g).2)
    ∧ (find_cycles_union_find (build_network_graph_with_routers g).1).Pairwise
        (fun a b => sameSetStr a b = false) := by
  have h0 : ¬((build_network_graph_with_routers g).1 = [] ∨
      (build_network_graph_with_routers g).1.length < 2) := by
    rintro (he | hl)
    · rw [he] at h3; simp at h3
    · omega
  have h2 : ¬((build_network_graph_with_routers g).1.length = 2) := by omega
  have heq : (check_network_loops g v).1
      = ((find_cycles_union_find (build_network_graph_with_routers g).1).filter
          (fun c => decide (c.length ≥ 3))).map
          (fun c => nl_issue_for c (build_network_graph_with_routers g).2) := by
    unfold check_network_loops
    simp only [h0, if_false, h2]
    exact nl_fold_issues _ _ ([], [])
  refine ⟨heq, ?_, find_cycles_union_find_pairwise _⟩
  intro i hi
  rw [heq] at hi
  simp only [List.mem_map, List.mem_filter] at hi
  obtain ⟨c, _, rfl⟩ := hi
  exact ⟨rfl, rfl, rfl⟩

/-- Closed instance of `claim3_loop_findings` at the five-network ring. -/
theorem claim3_loop_findings_witness :
    3 ≤ (build_network_graph_with_routers c3_ring_graph).1.length ∧
    ((check_network_loops c3_ring_graph false).1
      = ((find_cycles_union_find (build_network_graph_with_routers c3_ring_graph).1).filter
          (fun c => decide (c.length ≥ 3))).map
          (fun c => nl_issue_for c (build_network_graph_with_routers c3_ring_graph).2)
    ∧ (∀ i ∈ (check_network_loops c3_ring_graph false).1,
        i.severity = "critical" ∧ i.loop_size = i.networks_in_loop.length ∧
        i.routers_causing_loop
          = find_routers_in_loop i.networks_in_loop
              (build_network_graph_with_routers c3_ring_graph).2)
    ∧ (find_cycles_union_find (build_network_graph_with_routers c3_ring_graph).1).Pairwise
        (fun a b => sameSetStr a b = false)) :=
  ⟨by decide, claim3_loop_findings c3_ring_graph false (by decide)⟩

theorem triplesQ_purgeServes (g : RdfGraph) (s o : Option String) (p : String)
    (hp : p ≠ bacnet "serves-network") :
    triplesQ (purgeServes g) s (some p) o = triplesQ g s (some p) o := by
  unfold triplesQ purgeServes
  rw [List.filter_filter]
  apply List.filter_congr
  intro t _
  by_cases hm : t.p = p
  · simp [hm, hp]
  · simp [hm]

theorem triplesQ_purge_rdfType (g : RdfGraph) (o : Option String) :
    triplesQ (purgeServes g) none (some rdfType) o = triplesQ g none (some rdfType) o :=
  triplesQ_purgeServes g none o rdfType (by decide)

theorem objectsQ_purge_don (g : RdfGraph) (s : String) :
    objectsQ (purgeServes g) s (bacnet "device-on-network")
      = objectsQ g s (bacnet "device-on-network") := by
  unfold objectsQ
  rw [triplesQ_purgeServes _ _ _ _ (by decide)]

theorem objectsQ_purge_dos (g : RdfGraph) (s : String) :
    objectsQ (purgeServes g) s (bacnet "device-on-subnet")
      = objectsQ g s (bacnet "device-on-subnet") := by
  unfold objectsQ
  rw [triplesQ_purgeServes _ _ _ _ (by decide)]

theorem objectsQ_purge_son (g : RdfGraph) (s : String) :
    objectsQ (purgeServes g) s (bacnet "subnet-of-network")
      = objectsQ g s (bacnet "subnet-of-network") := by
  unfold objectsQ
  rw [triplesQ_purgeServes _ _ _ _ (by decide)]

theorem un_get_network_name_purgeServes (g : RdfGraph) (n : String) :
    un_get_network_name (purgeServes g) n = un_get_network_name g n := by
  unfold un_get_network_name firstObject objectsQ
  rw [triplesQ_purgeServes _ _ _ _ (by decide), triplesQ_purgeServes _ _ _ _ (by decide)]

theorem un_get_network_name_purgeServes_fun (g : RdfGraph) :
    un_get_network_name (purgeServes g) = un_get_network_name g :=
  funext (un_get_network_name_purgeServes g)

theorem check_unreachable_purgeServes (g : RdfGraph) (v : Bool) :
    check_unreachable_networks (purgeServes g) v = check_unreachable_networks g v := by
  unfold check_unreachable_networks
  simp only [triplesQ_purge_rdfType, objectsQ_purge_don, objectsQ_purge_dos,
    objectsQ_purge_son, un_get_network_name_purgeServes, un_get_network_name_purgeServes_fun]

/-- Claim C4 (as stated) is false on the code: in a graph with exactly two
typed BACnet networks joined only by a router with `device-on-network` A
and `serves-network` B, `check_unreachable_networks` emits one `isolated`
finding for each of the two networks (the claim asserts zero findings). -/
theorem claim4_counterexample :
    ((check_unreachable_networks c4_serves_graph false).1.map
      (fun i => (i.network, i.isolation_type, i.reachable_networks)))
      = [("bacnet://network/A", "isolated", 0), ("bacnet://network/B", "isolated", 0)]
    ∧ (check_unreachable_networks c4_serves_graph false).1 ≠ [] := by
  constructor
  · decide
  · decide

/-- Claim C4, amended: the adjacency used by `check_unreachable_networks`
for island computation never consults `serves-network` (removing every
`serves-network` triple leaves the result unchanged); it connects networks
only through a router's `device-on-network` memberships and
`device-on-subnet` → `subnet-of-network` links. Consequently the
two-network graph joined only by device-on-network A / serves-network B
yields one `isolated` finding per network, while the same graph with
`device-on-network` on both networks yields zero findings. -/
theorem claim4_unreachable_adjacency :
    (∀ g v, check_unreachable_networks (purgeServes g) v = check_unreachable_networks g v)
    ∧ ((check_unreachable_networks c4_serves_graph false).1.map
        (fun i => (i.network, i.isolation_type, i.reachable_networks)))
        = [("bacnet://network/A", "isolated", 0), ("bacnet://network/B", "isolated", 0)]
    ∧ (check_unreachable_networks c4_joined_graph false).1 = [] :=
  ⟨check_unreachable_purgeServes, by decide, by decide⟩

/-- Claim C5: two devices with the same `device-instance` value, each on a
different single network, produce exactly one `duplicate-device-id`
finding that references both devices (and both networks); the same two
devices on one shared network produce zero findings. -/
theorem claim5_duplicate_device_scope (d1 d2 n1 n2 v : String) (hd : d1 ≠ d2) :
    (n1 ≠ n2 →
      (check_duplicate_device_ids (c5_graph d1 d2 n1 n2 v) false).1
        = [⟨"duplicate-device-id", v, 2,
            [⟨d1, n1, "network"⟩, ⟨d2, n2, "network"⟩],
            [(n1, "network"), (n2, "network")]⟩])
    ∧ (n1 = n2 →
      (check_duplicate_device_ids (c5_graph d1 d2 n1 n2 v) false).1 = []) := by
  constructor
  · intro hn
    simp [check_duplicate_device_ids, c5_graph, triplesQ, objectsQ, subjectsQ, dictAppend,
      dictSet, dictGet?, insertAll, insertNew, bacnet, rdfType, hd, Ne.symm hd, hn, Ne.symm hn]
  · intro hn
    subst hn
    simp [check_duplicate_device_ids, c5_graph, triplesQ, objectsQ, subjectsQ, dictAppend,
      dictSet, dictGet?, insertAll, insertNew, bacnet, rdfType, hd, Ne.symm hd]

/-- Closed instance of `claim5_duplicate_device_scope` at concrete URIs. -/
theorem claim5_duplicate_device_scope_witness :
    ("urn:d1" : String) ≠ "urn:d2" ∧
    ((("urn:n1" : String) ≠ "urn:n2" →
      (check_duplicate_device_ids (c5_graph "urn:d1" "urn:d2" "urn:n1" "urn:n2" "123") false).1
        = [⟨"duplicate-device-id", "123", 2,
            [⟨"urn:d1", "urn:n1", "network"⟩, ⟨"urn:d2", "urn:n2", "network"⟩],
            [("urn:n1", "network"), ("urn:n2", "network")]⟩])
    ∧ (("urn:n1" : String) = "urn:n2" →
      (check_duplicate_device_ids (c5_graph "urn:d1" "urn:d2" "urn:n1" "urn:n2" "123") false).1
        = [])) :=
  ⟨by decide, claim5_duplicate_device_scope "urn:d1" "urn:d2" "urn:n1" "urn:n2" "123" (by decide)⟩

/-- Claim C6 (as stated) is false at a device whose `device-instance`
triple carries the empty-string value: `""` does not parse as an integer,
so the claim requires a critical finding, but the code's truthiness test
(`if not device_instance: continue`) skips the device and emits nothing. -/
theorem claim6_counterexample :
    pyInt "" = none ∧ (check_invalid_device_ranges (c6_graph "") false).1 = [] := by
  constructor
  · rfl
  · decide

/-- Claim C6, amended: for every device whose first `device-instance`
value is non-empty, `check_invalid_device_ranges` emits a finding iff the
value does not parse as an integer or parses outside `[0, 4194303]`; the
finding is `critical` with the corresponding description. Devices without
a `device-instance` triple — or with an empty value — are skipped
entirely. On the boundary graph, instances 0 and 4194303 yield no
finding while -1 and 4194304 each yield one critical finding. -/
theorem claim6_range_classification (g : RdfGraph) (vb : Bool) (device : String) :
    (firstObject g device (bacnet "device-instance") = none →
      invalid_range_body g vb device = ([], []))
    ∧ (firstObject g device (bacnet "device-instance") = some "" →
      invalid_range_body g vb device = ([], []))
    ∧ (∀ s, firstObject g device (bacnet "device-instance") = some s → s ≠ "" →
        (((invalid_range_body g vb device).1 = []
            ↔ ∃ n, pyInt s = some n ∧ 0 ≤ n ∧ n ≤ 4194303)
         ∧ (∀ i ∈ (invalid_range_body g vb device).1,
              i.severity = "critical" ∧ i.type = "invalid-device-ranges")
         ∧ (pyInt s = none →
              (invalid_range_body g vb device).1.map (fun i => i.description)
                = [s!"Device instance \"{s}\" is not a valid number. Valid range: 0-4194303"])
         ∧ (∀ n, pyInt s = some n → n < 0 ∨ 4194303 < n →
              (invalid_range_body g vb device).1.map (fun i => i.description)
                = [s!"Device instance {n} is outside valid BACnet range (0-4194303)"])))
    ∧ ((check_invalid_device_ranges c6_boundary_graph false).1.map
        (fun i => (i.device, i.severity))
        = [("urn:dneg", "critical"), ("urn:dover", "critical")]) := by
  refine ⟨?_, ?_, ?_, by decide⟩
  · intro h
    simp [invalid_range_body, h, truthy]
  · intro h
    simp [invalid_range_body, h, truthy]
  · intro s hfo hs
    have htt : truthy (some s) = true := by simp [truthy, hs]
    refine ⟨?_, ?_, ?_, ?_⟩
    · unfold invalid_range_body
      rw [hfo]
      simp only [Option.getD_some]
      cases hp : pyInt s with
      | none => simp [htt]
      | some n =>
        by_cases hr : n < 0 ∨ n > 4194303
        · simp only [htt, Option.getD_some]
          simp [hr]
          omega
        · simp only [htt, Option.getD_some]
          simp [hr]
          push_neg at hr
          omega
    · intro i hi
      unfold invalid_range_body at hi
      rw [hfo] at hi
      simp only [Option.getD_some] at hi
      cases hp : pyInt s with
      | none =>
        rw [hp] at hi
        simp [htt] at hi
        subst hi
        exact ⟨rfl, rfl⟩
      | some n =>
        rw [hp] at hi
        by_cases hr : n < 0 ∨ n > 4194303
        · simp [htt, hr] at hi
          subst hi
          exact ⟨rfl, rfl⟩
        · simp [htt, hr] at hi
    · intro hp
      unfold invalid_range_body
      rw [hfo]
      simp only [Option.getD_some]
      rw [hp]
      simp [htt]
    · intro n hp hr
      unfold invalid_range_body
      rw [hfo]
      simp only [Option.getD_some]
      rw [hp]
      simp [htt, hr]

/-- Closed instance of `claim6_range_classification`, exercising the
non-parseable branch at value `"abc"`. -/
theorem claim6_range_classification_witness :
    firstObject (c6_graph "abc") "urn:dev" (bacnet "device-instance") = some "abc" ∧
    ("abc" : String) ≠ "" ∧
    pyInt "abc" = none ∧
    (invalid_range_body (c6_graph "abc") false "urn:dev").1.map (fun i => i.description)
      = [s!"Device instance \"abc\" is not a valid number. Valid range: 0-4194303"] :=
  ⟨by decide, by decide, by decide,
   (((claim6_range_classification (c6_graph "abc") false "urn:dev").2.2.1 "abc"
      (by decide) (by decide)).2.2.1 (by decide))⟩

theorem listHasSub_append_right (pat l1 l2 : List Char) (h : listHasSub pat l2 = true) :
    listHasSub pat (l1 ++ l2) = true := by
  induction l1 with
  | nil => simpa using h
  | cons c rest ih =>
    rw [List.cons_append]
    unfold listHasSub
    rw [ih]
    simp

theorem strHasSub_append_right (a b sub : String) (h : strHasSub b sub = true) :
    strHasSub (a ++ b) sub = true := by
  unfold strHasSub at h ⊢
  have hsplit : (a ++ b).toList = a.toList ++ b.toList := by
    simp [String.toList]
  rw [hsplit]
  exact listHasSub_append_right _ _ _ h

/-- Claim C7: for devices whose label and URI avoid the Grasshopper
sentinel, the vendor-id ladder of `check_missing_vendor_ids` behaves as
specified: no vendor-id triple gives one `medium` finding with a null
`vendor_id`; a value parsing to 0 gives one `medium` finding whose
description mentions `reserved`; a value parsing to a negative integer
gives one `medium` finding whose description mentions `positive`; a value
parsing to a positive integer gives no finding. The closing conjuncts
evaluate the full check at the claim's example values `"0"`, `"-5"`,
`"123"` and at a device with no vendor-id triple. -/
theorem claim7_vendor_ladder (g : RdfGraph) (vb : Bool) (device : String)
    (hname : (match firstObject g device rdfsLabel with
              | some n => strHasSub n "Grasshopper"
              | none => false) = false)
    (huri : strHasSub device "Grasshopper" = false) :
    (firstObject g device (bacnet "vendor-id") = none →
      (missing_vendor_body g vb device).1.map (fun i => (i.severity, i.vendor_id))
        = [("medium", none)])
    ∧ (∀ vid, firstObject g device (bacnet "vendor-id") = some vid → vid ≠ "" →
        vendor_numeric vid = some 0 →
        (missing_vendor_body g vb device).1.map
            (fun i => (i.severity, strHasSub i.description "reserved"))
          = [("medium", true)])
    ∧ (∀ vid n, firstObject g device (bacnet "vendor-id") = some vid → vid ≠ "" →
        vendor_numeric vid = some n → n < 0 →
        (missing_vendor_body g vb device).1.map
            (fun i => (i.severity, strHasSub i.description "positive"))
          = [("medium", true)])
    ∧ (∀ vid n, firstObject g device (bacnet "vendor-id") = some vid → vid ≠ "" →
        vendor_numeric vid = some n → 0 < n →
        missing_vendor_body g vb device = ([], []))
    ∧ ((check_missing_vendor_ids (c7_graph "0") false).1.map
        (fun i => (i.severity, i.vendor_id, strHasSub i.description "reserved"))
        = [("medium", some "0", true)])
    ∧ ((check_missing_vendor_ids (c7_graph "-5") false).1.map
        (fun i => (i.severity, i.vendor_id, strHasSub i.description "positive"))
        = [("medium", some "-5", true)])
    ∧ (check_missing_vendor_ids (c7_graph "123") false).1 = []
    ∧ ((check_missing_vendor_ids c7_absent_graph false).1.map
        (fun i => (i.severity, i.vendor_id)) = [("medium", none)]) := by
  refine ⟨?_, ?_, ?_, ?_, by decide, by decide, by decide, by decide⟩
  · intro hfo
    simp [missing_vendor_body, hname, huri, hfo, truthy]
  · intro vid hfo hvid hnum
    have htv : truthy (some vid) = true := by simp [truthy, hvid]
    simp only [missing_vendor_body, hname, huri, Bool.or_self, Bool.false_eq_true, if_false,
      hfo, htv, Bool.not_eq_true, hnum, Option.getD_some]
    simp [hnum]
    apply strHasSub_append_right
    decide
  · intro vid n hfo hvid hnum hneg
    have htv : truthy (some vid) = true := by simp [truthy, hvid]
    simp only [missing_vendor_body, hname, huri, Bool.or_self, Bool.false_eq_true, if_false,
      hfo, htv, Bool.not_eq_true, hnum, Option.getD_some]
    simp [hnum, hneg, (by omega : n ≠ 0)]
    apply strHasSub_append_right
    decide
  · intro vid n hfo hvid hnum hpos
    have htv : truthy (some vid) = true := by simp [truthy, hvid]
    have h1 : ¬ n < 0 := by omega
    have h2 : ¬ n = 0 := by omega
    simp only [missing_vendor_body, hname, huri, Bool.or_self, Bool.false_eq_true, if_false,
      hfo, htv, Bool.not_eq_true, hnum, Option.getD_some]
    simp [hnum, h1, h2]

/-- Closed instance of `claim7_vendor_ladder` at the `"0"` (reserved)
example. -/
theorem claim7_vendor_ladder_witness :
    ((match firstObject (c7_graph "0") "urn:dev" rdfsLabel with
      | some n => strHasSub n "Grasshopper"
      | none => false) = false) ∧
    strHasSub "urn:dev" "Grasshopper" = false ∧
    firstObject (c7_graph "0") "urn:dev" (bacnet "vendor-id") = some "0" ∧
    ("0" : String) ≠ "" ∧
    vendor_numeric "0" = some 0 ∧
    (missing_vendor_body (c7_graph "0") false "urn:dev").1.map
        (fun i => (i.severity, strHasSub i.description "reserved"))
      = [("medium", true)] :=
  ⟨by decide, by decide, by decide, by decide, by decide,
   (claim7_vendor_ladder (c7_graph "0") false "urn:dev" (by decide) (by decide)).2.1 "0"
     (by decide) (by decide) (by decide)⟩

theorem get_thresholds_warning_le_critical (ty : String) :
    (get_thresholds_for_type ty).1 ≤ (get_thresholds_for_type ty).2 := by
  unfold get_thresholds_for_type
  repeat' split
  all_goals decide

/-- Claim C8: the per-type `(warning, critical)` thresholds are
mstp=(15,30), ip=(50,100), ethernet=(50,100), arcnet=(15,25), ptp=(2,3),
other=(25,50); a device count at or above the critical threshold yields an
`oversized-networks-critical` finding, otherwise a count at or above the
warning threshold yields an `oversized-networks-warning` finding,
otherwise none. An mstp-typed network with 17 devices yields one warning
finding while an ip-typed network with 17 devices yields none. -/
theorem claim8_oversized_thresholds (g : RdfGraph) (vb : Bool) (network : String)
    (devices : List String) :
    get_thresholds_for_type "mstp" = (15, 30)
    ∧ get_thresholds_for_type "ip" = (50, 100)
    ∧ get_thresholds_for_type "ethernet" = (50, 100)
    ∧ get_thresholds_for_type "arcnet" = (15, 25)
    ∧ get_thresholds_for_type "ptp" = (2, 3)
    ∧ get_thresholds_for_type "other" = (25, 50)
    ∧ (devices.length ≥ (get_thresholds_for_type (detect_network_type g network devices)).2 →
        ∃ i, oversized_body g vb network devices = some i ∧
          i.issue_type = "oversized-networks-critical" ∧ i.severity = "critical")
    ∧ (devices.length < (get_thresholds_for_type (detect_network_type g network devices)).2 →
       devices.length ≥ (get_thresholds_for_type (detect_network_type g network devices)).1 →
        ∃ i, oversized_body g vb network devices = some i ∧
          i.issue_type = "oversized-networks-warning" ∧ i.severity = "warning")
    ∧ (devices.length < (get_thresholds_for_type (detect_network_type g network devices)).1 →
        oversized_body g vb network devices = none)
    ∧ ((check_oversized_networks (c8_graph "mstp") false).1.map
        (fun i => (i.issue_type, i.severity, i.network_type, i.device_count, i.threshold))
        = [("oversized-networks-warning", "warning", "mstp", 17, 15)])
    ∧ (check_oversized_networks (c8_graph "ip") false).1 = [] := by
  refine ⟨by decide, by decide, by decide, by decide, by decide, by decide,
    ?_, ?_, ?_, by decide, by decide⟩
  · intro h
    unfold oversized_body
    simp only [if_pos h]
    exact ⟨_, rfl, rfl, rfl⟩
  · intro h2 h1
    unfold oversized_body
    simp only [if_neg (not_le.mpr h2), if_pos h1]
    exact ⟨_, rfl, rfl, rfl⟩
  · intro h1
    have hwc : (get_thresholds_for_type (detect_network_type g network devices)).1 ≤
        (get_thresholds_for_type (detect_network_type g network devices)).2 :=
      get_thresholds_warning_le_critical _
    have hA : ¬ devices.length ≥
        (get_thresholds_for_type (detect_network_type g network devices)).2 := by omega
    have hB : ¬ devices.length ≥
        (get_thresholds_for_type (detect_network_type g network devices)).1 := by omega
    simp only [oversized_body, if_neg hA, if_neg hB]

/-- Closed instance of `claim8_oversized_thresholds` at the mstp network
with 17 devices. -/
theorem claim8_oversized_thresholds_witness :
    (((List.range 17).map (fun i => s!"urn:dev{i}")).length <
      (get_thresholds_for_type (detect_network_type (c8_graph "mstp") "urn:net"
        ((List.range 17).map (fun i => s!"urn:dev{i}")))).2) ∧
    (((List.range 17).map (fun i => s!"urn:dev{i}")).length ≥
      (get_thresholds_for_type (detect_network_type (c8_graph "mstp") "urn:net"
        ((List.range 17).map (fun i => s!"urn:dev{i}")))).1) ∧
    (∃ i, oversized_body (c8_graph "mstp") false "urn:net"
        ((List.range 17).map (fun i => s!"urn:dev{i}")) = some i ∧
      i.issue_type = "oversized-networks-warning" ∧ i.severity = "warning") :=
  ⟨by decide, by decide,
    (claim8_oversized_thresholds (c8_graph "mstp") false "urn:net"
      ((List.range 17).map (fun i => s!"urn:dev{i}"))).2.2.2.2.2.2.2.1
      (by decide) (by decide)⟩

theorem is_ip_in_subnet_parse_fail (a cidr : String)
    (h : ip_address_parse a = none ∨ ip_network_parse cidr = none) :
    _is_ip_in_subnet a cidr = true := by
  unfold _is_ip_in_subnet
  cases hx : ip_address_parse a with
  | none => simp [hx]
  | some ip =>
    cases hy : ip_network_parse cidr with
    | none => simp [hx, hy]
    | some np =>
      rcases h with h | h
      · rw [hx] at h; cases h
      · rw [hy] at h; cases h

/-- Claim C9: in `check_subnet_mismatches`, a device whose address or
whose subnet's CIDR fails to parse as an IP value is treated as a
non-violation: `_is_ip_in_subnet` returns `True` on any parse failure and
the device contributes no finding. On the concrete graph, the device with
the BACnet MAC-style address `3:0x1a` is silently skipped while the
device with out-of-range IP `10.0.0.5` is flagged. -/
theorem claim9_subnet_parse_skip :
    (∀ a cidr, ip_address_parse a = none ∨ ip_network_parse cidr = none →
      _is_ip_in_subnet a cidr = true)
    ∧ (∀ (g : RdfGraph) (vb : Bool) (si : List (String × SubnetData))
        (device : String) (data : SubnetData) (a dsn : String),
        lastObject g device (bacnet "device-on-subnet") = some dsn →
        lastObject g device (bacnet "address") = some a → a ≠ "" →
        dictGet? si dsn = some data →
        (ip_address_parse a = none ∨ ip_network_parse data.address = none) →
        subnet_mismatch_body g vb si device = ([], []))
    ∧ (check_subnet_mismatches c9_graph false).1.map (fun i => i.device) = ["urn:dev2"]
    ∧ ip_address_parse "3:0x1a" = none := by
  refine ⟨is_ip_in_subnet_parse_fail, ?_, by decide, by decide⟩
  intro g vb si device data a dsn h1 h2 ha h3 hp
  have hin : _is_ip_in_subnet a data.address = true := is_ip_in_subnet_parse_fail _ _ hp
  simp [subnet_mismatch_body, h1, h2, truthy, ha, h3, hin]

/-- Closed instance of `claim9_subnet_parse_skip` at the BACnet MAC-style
address of the concrete graph. -/
theorem claim9_subnet_parse_skip_witness :
    lastObject c9_graph "urn:dev1" (bacnet "device-on-subnet") = some "urn:sub1" ∧
    lastObject c9_graph "urn:dev1" (bacnet "address") = some "3:0x1a" ∧
    ("3:0x1a" : String) ≠ "" ∧
    dictGet? (subnet_info_build c9_graph) "urn:sub1"
      = some ⟨"192.168.1.0/24", "urn:sub1", none⟩ ∧
    (ip_address_parse "3:0x1a" = none ∨
      ip_network_parse (SubnetData.mk "192.168.1.0/24" "urn:sub1" none).address = none) ∧
    subnet_mismatch_body c9_graph false (subnet_info_build c9_graph) "urn:dev1" = ([], []) :=
  ⟨by decide, by decide, by decide, by decide, .inl (by decide),
   (claim9_subnet_parse_skip).2.1 c9_graph false (subnet_info_build c9_graph) "urn:dev1"
     ⟨"192.168.1.0/24", "urn:sub1", none⟩ "3:0x1a" "urn:sub1"
     (by decide) (by decide) (by decide) (by decide) (.inl (by decide))⟩

theorem mem_insertNew {α : Type} [DecidableEq α] (l : List α) (v x : α) :
    x ∈ insertNew l v ↔ x ∈ l ∨ x = v := by
  unfold insertNew
  by_cases h : v ∈ l
  · simp only [if_pos h]
    constructor
    · exact .inl
    · rintro (hx | rfl)
      · exact hx
      · exact h
  · simp [if_neg h]

theorem dictGetD_dictAddToSet {α : Type} [DecidableEq α] (m : List (String × List α))
    (k k' : String) (v : α) :
    dictGetD (dictAddToSet m k v) k' []
      = if k' = k then insertNew (dictGetD m k []) v else dictGetD m k' [] := by
  induction m with
  | nil =>
    by_cases h : k' = k
    · subst h; simp [dictAddToSet, dictGetD, dictGet?, insertNew]
    · have h2 : ¬ k = k' := fun hh => h hh.symm
      simp [dictAddToSet, dictGetD, dictGet?, h, h2]
  | cons hd tl ih =>
    obtain ⟨k0, vs0⟩ := hd
    by_cases h0 : k0 = k
    · subst h0
      by_cases h1 : k' = k0
      · subst h1; simp [dictAddToSet, dictGetD, dictGet?]
      · have h2 : ¬ k0 = k' := fun hh => h1 hh.symm
        simp [dictAddToSet, dictGetD, dictGet?, h1, h2]
    · by_cases h1 : k0 = k'
      · subst h1
        simp [dictAddToSet, dictGetD, dictGet?, h0]
      · have e1 : dictAddToSet ((k0, vs0) :: tl) k v = (k0, vs0) :: dictAddToSet tl k v := by
          simp [dictAddToSet, h0]
        rw [e1]
        have e2 : dictGetD ((k0, vs0) :: dictAddToSet tl k v) k' []
            = dictGetD (dictAddToSet tl k v) k' [] := by
          simp [dictGetD, dictGet?, h1]
        have e3 : dictGetD ((k0, vs0) :: tl) k' [] = dictGetD tl k' [] := by
          simp [dictGetD, dictGet?, h1]
        have e4 : dictGetD ((k0, vs0) :: tl) k [] = dictGetD tl k [] := by
          simp [dictGetD, dictGet?, h0]
        rw [e2, e3, e4, ih]

theorem mem_keys_dictAddToSet {α : Type} [DecidableEq α] (m : List (String × List α))
    (k a : String) (v : α) :
    a ∈ (dictAddToSet m k v).map Prod.fst ↔ a ∈ m.map Prod.fst ∨ a = k := by
  induction m with
  | nil => simp [dictAddToSet, eq_comm]
  | cons hd tl ih =>
    obtain ⟨k0, vs0⟩ := hd
    by_cases h0 : k0 = k
    · subst h0
      simp only [dictAddToSet, eq_self_iff_true, if_true, List.map_cons, List.mem_cons]
      tauto
    · simp only [dictAddToSet, if_neg h0, List.map_cons, List.mem_cons, ih]
      tauto

theorem keys_nodup_dictAddToSet {α : Type} [DecidableEq α] (m : List (String × List α))
    (k : String) (v : α) (h : (m.map Prod.fst).Nodup) :
    ((dictAddToSet m k v).map Prod.fst).Nodup := by
  induction m with
  | nil => simp [dictAddToSet]
  | cons hd tl ih =>
    obtain ⟨k0, vs0⟩ := hd
    rw [List.map_cons, List.nodup_cons] at h
    by_cases h0 : k0 = k
    · subst h0
      simpa [dictAddToSet, List.nodup_cons] using h
    · rw [dictAddToSet, if_neg h0, List.map_cons, List.nodup_cons]
      refine ⟨?_, ih h.2⟩
      rw [mem_keys_dictAddToSet]
      rintro (hmem | rfl)
      · exact h.1 hmem
      · exact h0 rfl

theorem dictGet?_eq_of_mem_nodup {α : Type} (m : List (String × α)) (k : String) (vs : α)
    (hnd : (m.map Prod.fst).Nodup) (hkv : (k, vs) ∈ m) : dictGet? m k = some vs := by
  induction m with
  | nil => cases hkv
  | cons hd tl ih =>
    obtain ⟨k0, vs0⟩ := hd
    rw [List.map_cons, List.nodup_cons] at hnd
    rcases List.mem_cons.mp hkv with heq | hmem
    · cases heq
      simp [dictGet?]
    · have hk0 : k0 ≠ k := by
        rintro rfl
        exact hnd.1 (List.mem_map.mpr ⟨(k0, vs), hmem, rfl⟩)
      rw [dictGet?, if_neg hk0]
      exact ih hnd.2 hmem

/-- The invariant carried by the routing connectivity map: unique keys,
and symmetric membership (`b` reachable from `a` iff `a` reachable from
`b`). -/
def ConnInv (m : List (String × List String)) : Prop :=
  (m.map Prod.fst).Nodup ∧ ∀ a b, b ∈ dictGetD m a [] → a ∈ dictGetD m b []

theorem symConn_addBoth (m : List (String × List String)) (x y : String) (hxy : x ≠ y)
    (hm : ∀ a b, b ∈ dictGetD m a [] → a ∈ dictGetD m b []) (a b : String)
    (hb : b ∈ dictGetD (dictAddToSet (dictAddToSet m x y) y x) a []) :
    a ∈ dictGetD (dictAddToSet (dictAddToSet m x y) y x) b [] := by
  have hyx : ¬ y = x := fun h => hxy h.symm
  have key : ∀ t, dictGetD (dictAddToSet (dictAddToSet m x y) y x) t []
      = if t = y then insertNew (dictGetD m y []) x
        else if t = x then insertNew (dictGetD m x []) y
        else dictGetD m t [] := by
    intro t
    rw [dictGetD_dictAddToSet]
    by_cases ht : t = y
    · subst ht
      rw [if_pos rfl, if_pos rfl, dictGetD_dictAddToSet, if_neg hyx]
    · rw [if_neg ht, if_neg ht, dictGetD_dictAddToSet]
  rw [key] at hb
  rw [key]
  by_cases hay : a = y
  · rw [if_pos hay] at hb
    rcases (mem_insertNew _ _ _).mp hb with hmem | hbx
    · have hy : y ∈ dictGetD m b [] := hm y b hmem
      have ha' : a ∈ dictGetD m b [] := by rw [hay]; exact hy
      by_cases hby : b = y
      · rw [if_pos hby]
        rw [hby] at ha'
        exact (mem_insertNew _ _ _).mpr (.inl ha')
      · rw [if_neg hby]
        by_cases hbx : b = x
        · rw [if_pos hbx]
          exact (mem_insertNew _ _ _).mpr (.inr hay)
        · rw [if_neg hbx]
          exact ha'
    · have hbyF : ¬ b = y := by rw [hbx]; exact hxy
      rw [if_neg hbyF, if_pos hbx]
      exact (mem_insertNew _ _ _).mpr (.inr hay)
  · rw [if_neg hay] at hb
    by_cases hax : a = x
    · rw [if_pos hax] at hb
      rcases (mem_insertNew _ _ _).mp hb with hmem | hby2
      · have hx : x ∈ dictGetD m b [] := hm x b hmem
        have ha' : a ∈ dictGetD m b [] := by rw [hax]; exact hx
        by_cases hby : b = y
        · rw [if_pos hby]
          exact (mem_insertNew _ _ _).mpr (.inr hax)
        · rw [if_neg hby]
          by_cases hbx : b = x
          · rw [if_pos hbx]
            rw [hbx] at ha'
            exact (mem_insertNew _ _ _).mpr (.inl ha')
          · rw [if_neg hbx]
            exact ha'
      · rw [if_pos hby2]
        exact (mem_insertNew _ _ _).mpr (.inr hax)
    · rw [if_neg hax] at hb
      have hsym := hm a b hb
      by_cases hby : b = y
      · rw [if_pos hby]
        rw [hby] at hsym
        exact (mem_insertNew _ _ _).mpr (.inl hsym)
      · rw [if_neg hby]
        by_cases hbx : b = x
        · rw [if_pos hbx]
          rw [hbx] at hsym
          exact (mem_insertNew _ _ _).mpr (.inl hsym)
        · rw [if_neg hbx]
          exact hsym

theorem connInv_addBoth (m : List (String × List String)) (x y : String) (hxy : x ≠ y)
    (h : ConnInv m) : ConnInv (dictAddToSet (dictAddToSet m x y) y x) :=
  ⟨keys_nodup_dictAddToSet _ _ _ (keys_nodup_dictAddToSet _ _ _ h.1),
   symConn_addBoth m x y hxy h.2⟩

theorem connInv_fold_serves (on_network : String) (served : List String)
    (m : List (String × List String)) (h : ConnInv m) :
    ConnInv (served.foldl (fun conns served_network =>
      if on_network ≠ served_network then
        dictAddToSet (dictAddToSet conns on_network served_network) served_network on_network
      else conns) m) := by
  induction served generalizing m with
  | nil => exact h
  | cons s rest ih =>
    rw [List.foldl_cons]
    apply ih
    by_cases hne : on_network ≠ s
    · rw [if_pos hne]
      exact connInv_addBoth m on_network s hne h
    · rw [if_neg hne]
      exact h

theorem connInv_fold_ons (served ons : List String) (m : List (String × List String))
    (h : ConnInv m) :
    ConnInv (ons.foldl (fun conns on_network =>
      served.foldl (fun conns served_network =>
        if on_network ≠ served_network then
          dictAddToSet (dictAddToSet conns on_network served_network) served_network on_network
        else conns) conns) m) := by
  induction ons generalizing m with
  | nil => exact h
  | cons o rest ih =>
    rw [List.foldl_cons]
    exact ih _ (connInv_fold_serves o served m h)

theorem connInv_fold_outer (rs entries : List (String × List String))
    (m : List (String × List String)) (h : ConnInv m) :
    ConnInv (entries.foldl (fun conns entry =>
      entry.2.foldl (fun conns on_network =>
        (dictGetD rs entry.1 []).foldl (fun conns served_network =>
          if on_network ≠ served_network then
            dictAddToSet (dictAddToSet conns on_network served_network) served_network
              on_network
          else conns) conns) conns) m) := by
  induction entries generalizing m with
  | nil => exact h
  | cons e rest ih =>
    rw [List.foldl_cons]
    exact ih _ (connInv_fold_ons (dictGetD rs e.1 []) e.2 m h)

theorem connInv_empty : ConnInv [] := by
  refine ⟨List.nodup_nil, fun a b hb => ?_⟩
  simp [dictGetD, dictGet?] at hb

theorem connInv_build (g : RdfGraph) (routers networks : List String) :
    ConnInv (build_routing_graph g routers networks).network_connections := by
  unfold build_routing_graph
  exact connInv_fold_outer _ _ [] connInv_empty

theorem asym_inner_fold_id (m : List (String × List String)) (k : String)
    (vs : List String) (hvs : ∀ b ∈ vs, k ∈ dictGetD m b [])
    (acc : List (String × String)) :
    vs.foldl (fun pairs network_b =>
      if k ∉ dictGetD m network_b [] then pairs ++ [(k, network_b)] else pairs) acc
      = acc := by
  induction vs generalizing acc with
  | nil => rfl
  | cons b rest ih =>
    rw [List.foldl_cons, if_neg (by simpa using hvs b (List.mem_cons_self b rest))]
    exact ih (fun x hx => hvs x (List.mem_cons_of_mem b hx)) acc

theorem asym_outer_fold_id (m l : List (String × List String))
    (hl : ∀ e ∈ l, e ∈ m) (hnd : (m.map Prod.fst).Nodup)
    (hsym : ∀ a b, b ∈ dictGetD m a [] → a ∈ dictGetD m b [])
    (acc : List (String × String)) :
    l.foldl (fun pairs entry =>
      entry.2.foldl (fun pairs network_b =>
        if entry.1 ∉ dictGetD m network_b [] then pairs ++ [(entry.1, network_b)]
        else pairs) pairs) acc = acc := by
  induction l generalizing acc with
  | nil => rfl
  | cons e rest ih =>
    rw [List.foldl_cons]
    have hget : dictGetD m e.1 [] = e.2 := by
      unfold dictGetD
      rw [dictGet?_eq_of_mem_nodup m e.1 e.2 hnd (hl e (List.mem_cons_self e rest))]
      rfl
    have hvs : ∀ b ∈ e.2, e.1 ∈ dictGetD m b [] := by
      intro b hb
      exact hsym e.1 b (by rw [hget]; exact hb)
    rw [asym_inner_fold_id m e.1 e.2 hvs acc]
    exact ih (fun x hx => hl x (List.mem_cons_of_mem e hx)) acc

/-- Claim C10: `_build_routing_graph` inserts every reverse edge together
with its forward edge, so its network connectivity map is symmetric, and
the asymmetric-routing sub-check of `check_routing_inefficiencies`
(`_check_asymmetric_routing`) can never find a one-directional connection:
it returns zero findings on every input. -/
theorem claim10_asymmetric_routing_empty (g : RdfGraph) (routers networks : List String)
    (vb : Bool) :
    (∀ a b, b ∈ dictGetD (build_routing_graph g routers networks).network_connections a [] →
      a ∈ dictGetD (build_routing_graph g routers networks).network_connections b [])
    ∧ check_asymmetric_routing (build_routing_graph g routers networks) vb = [] := by
  have hinv := connInv_build g routers networks
  refine ⟨hinv.2, ?_⟩
  unfold check_asymmetric_routing
  rw [asym_outer_fold_id _ _ (fun e he => he) hinv.1 hinv.2 []]
  rfl

/-- Closed instance of `claim10_asymmetric_routing_empty` on a router that
is on network A and serves network B: the connectivity map holds both
directions and the asymmetric-routing sub-check reports nothing. -/
theorem claim10_asymmetric_routing_empty_witness :
    "urn:B" ∈ dictGetD
      (build_routing_graph c10_graph ["urn:R"] ["urn:A", "urn:B"]).network_connections
      "urn:A" [] ∧
    "urn:A" ∈ dictGetD
      (build_routing_graph c10_graph ["urn:R"] ["urn:A", "urn:B"]).network_connections
      "urn:B" [] ∧
    check_asymmetric_routing (build_routing_graph c10_graph ["urn:R"] ["urn:A", "urn:B"]) false
      = [] :=
  ⟨by decide,
   (claim10_asymmetric_routing_empty c10_graph ["urn:R"] ["urn:A", "urn:B"] false).1
     "urn:A" "urn:B" (by decide),
   (claim10_asymmetric_routing_empty c10_graph ["urn:R"] ["urn:A", "urn:B"] false).2⟩

theorem exec_go_step_two (sem : FnId → RdfGraph → Bool → FnRet) (g : RdfGraph) (verbose : Bool)
    (it : String) (rest : List String) (ai : List (String × List Finding))
    (aff : List Affected) (ex log : List FnId) (entry : CatEntry)
    (issues : List Finding) (affected : List Affected)
    (he : dictGet? registry_checks it = some entry)
    (hsingle : entry.single_check = true)
    (hnotex : entry.fn ∉ ex)
    (hsem : sem entry.fn g verbose = .two issues affected) :
    exec_go sem g verbose (it :: rest) ai aff ex log
      = exec_go sem g verbose rest (dictSet ai it issues) (aff ++ affected)
          (ex ++ [entry.fn]) (log ++ [entry.fn]) := by
  rw [exec_go, he]
  simp only [if_neg hnotex, hsem, hsingle, if_true]

theorem exec_go_step_multi (sem : FnId → RdfGraph → Bool → FnRet) (g : RdfGraph)
    (verbose : Bool) (it : String) (rest : List String)
    (ai : List (String × List Finding)) (aff : List Affected) (ex log : List FnId)
    (entry : CatEntry) (issues : List Finding) (affected : List Affected)
    (he : dictGet? registry_checks it = some entry)
    (hsingle : entry.single_check = false)
    (hnotex : entry.fn ∉ ex)
    (hsem : sem entry.fn g verbose = .two issues affected) :
    exec_go sem g verbose (it :: rest) ai aff ex log
      = exec_go sem g verbose rest
          ((it :: entry.related_types).foldl (fun ai rt =>
            dictSet ai rt (issues.filter (fun i => decide (i.issueTypeGet = some rt)))) ai)
          (aff ++ affected) (ex ++ [entry.fn]) (log ++ [entry.fn]) := by
  rw [exec_go, he]
  simp only [if_neg hnotex, hsem, hsingle, Bool.false_eq_true, if_false]

theorem exec_go_step_skip (sem : FnId → RdfGraph → Bool → FnRet) (g : RdfGraph)
    (verbose : Bool) (it : String) (rest : List String)
    (ai : List (String × List Finding)) (aff : List Affected) (ex log : List FnId)
    (entry : CatEntry)
    (he : dictGet? registry_checks it = some entry)
    (hex : entry.fn ∈ ex) :
    exec_go sem g verbose (it :: rest) ai aff ex log
      = exec_go sem g verbose rest ai aff ex log := by
  rw [exec_go, he]
  simp only [if_pos hex]

theorem exec_go_step_three (sem : FnId → RdfGraph → Bool → FnRet) (g : RdfGraph)
    (verbose : Bool) (it : String) (rest : List String)
    (ai : List (String × List Finding)) (aff : List Affected) (ex log : List FnId)
    (entry : CatEntry) (issues : List Finding) (x y : List Affected)
    (he : dictGet? registry_checks it = some entry)
    (hnotex : entry.fn ∉ ex)
    (hsem : sem entry.fn g verbose = .three issues x y) :
    exec_go sem g verbose (it :: rest) ai aff ex log = .error .valueError := by
  rw [exec_go, he]
  simp only [if_neg hnotex, hsem]

/-- Claim C1: resolving the selector `duplicate-network` yields the pair
`[duplicate-network, duplicate-router]`, and executing it runs the shared
analyzer `check_duplicate_networks` exactly once (the call log has exactly
one entry), populating both result buckets with the partition of that
single invocation's output by `issue_type`. The statement holds for any
function table `sem` that maps the `dupNetworks` slot to the embedded
`check_duplicate_networks`. -/
theorem claim1_registry_dedup (sem : FnId → RdfGraph → Bool → FnRet) (g : RdfGraph)
    (verbose : Bool) (hsem : sem FnId.dupNetworks = sem_check_duplicate_networks) :
    resolve_issues_to_check "duplicate-network" = ["duplicate-network", "duplicate-router"]
    ∧ execute_checks sem (resolve_issues_to_check "duplicate-network") g verbose
      = .ok ⟨[("duplicate-network",
              ((check_duplicate_networks g verbose).1.map Finding.dupNet).filter
                (fun i => decide (i.issueTypeGet = some "duplicate-network"))),
             ("duplicate-router",
              ((check_duplicate_networks g verbose).1.map Finding.dupNet).filter
                (fun i => decide (i.issueTypeGet = some "duplicate-router")))],
            (check_duplicate_networks g verbose).2.map Affected.triple,
            [FnId.dupNetworks]⟩ := by
  refine ⟨rfl, ?_⟩
  rw [show resolve_issues_to_check "duplicate-network"
      = ["duplicate-network", "duplicate-router"] from rfl]
  unfold execute_checks
  rw [exec_go_step_multi sem g verbose "duplicate-network" _ _ _ _ _
      ⟨.dupNetworks, "Detect network numbers on routers in different subnets",
       "network-topology", false, ["duplicate-router"]⟩
      ((check_duplicate_networks g verbose).1.map Finding.dupNet)
      ((check_duplicate_networks g verbose).2.map Affected.triple)
      rfl rfl (by simp) (by rw [hsem]; rfl)]
  rw [exec_go_step_skip sem g verbose "duplicate-router" _ _ _ _ _
      ⟨.dupNetworks, "Detect network numbers on multiple routers in same subnet",
       "network-topology", false, ["duplicate-network"]⟩
      rfl (by simp)]
  rw [exec_go]
  simp [dictSet]

/-- Closed instance of `claim1_registry_dedup` with the embedded function
table and the empty graph. -/
theorem claim1_registry_dedup_witness :
    sem_table_embedded FnId.dupNetworks = sem_check_duplicate_networks ∧
    (resolve_issues_to_check "duplicate-network" = ["duplicate-network", "duplicate-router"]
    ∧ execute_checks sem_table_embedded (resolve_issues_to_check "duplicate-network") [] false
      = .ok ⟨[("duplicate-network",
              ((check_duplicate_networks [] false).1.map Finding.dupNet).filter
                (fun i => decide (i.issueTypeGet = some "duplicate-network"))),
             ("duplicate-router",
              ((check_duplicate_networks [] false).1.map Finding.dupNet).filter
                (fun i => decide (i.issueTypeGet = some "duplicate-router")))],
            (check_duplicate_networks [] false).2.map Affected.triple,
            [FnId.dupNetworks]⟩) :=
  ⟨rfl, claim1_registry_dedup sem_table_embedded [] false rfl⟩

/-- Claim C2 is contradicted by the code: executing the full catalog
(`resolve_issues_to_check 'all'`) always aborts with a `ValueError`,
because the fifth catalog entry, `missing-vendor-ids`, is backed by
`check_missing_vendor_ids`, which returns a 3-tuple that the registry's
`issues, affected_triples = function(graph, verbose)` unpacking cannot
destructure. Execution never reaches the remaining analyzers, for every
graph and verbose flag. -/
theorem claim2_execute_all_crashes (sem : FnId → RdfGraph → Bool → FnRet) (g : RdfGraph)
    (verbose : Bool)
    (h1 : sem FnId.dupDeviceIds = sem_check_duplicate_device_ids)
    (h2 : sem FnId.orphanedDevices = sem_check_orphaned_devices)
    (h3 : sem FnId.invalidDeviceRanges = sem_check_invalid_device_ranges)
    (h4 : sem FnId.deviceAddressConflicts = sem_check_device_address_conflicts)
    (h5 : sem FnId.missingVendorIds = sem_check_missing_vendor_ids) :
    execute_checks sem (resolve_issues_to_check "all") g verbose = .error .valueError := by
  rw [show resolve_issues_to_check "all"
      = "duplicate-device-id" :: "orphaned-devices" :: "invalid-device-ranges" ::
        "device-address-conflicts" :: "missing-vendor-ids" ::
        List.drop 5 get_all_issue_types from rfl]
  unfold execute_checks
  rw [exec_go_step_two sem g verbose "duplicate-device-id" _ _ _ _ _
      ⟨.dupDeviceIds, "Detect devices with same ID across different networks/subnets",
       "device-conflicts", true, []⟩
      ((check_duplicate_device_ids g verbose).1.map Finding.dupDev)
      ((check_duplicate_device_ids g verbose).2.map Affected.triple)
      rfl rfl (by simp) (by rw [h1]; rfl)]
  rw [exec_go_step_two sem g verbose "orphaned-devices" _ _ _ _ _
      ⟨.orphanedDevices, "Detect devices not connected to any network or subnet",
       "connectivity", true, []⟩
      ((check_orphaned_devices g verbose).1.map Finding.orphan)
      ((check_orphaned_devices g verbose).2.map Affected.node)
      rfl rfl (by simp) (by rw [h2]; rfl)]
  rw [exec_go_step_two sem g verbose "invalid-device-ranges" _ _ _ _ _
      ⟨.invalidDeviceRanges,
       "Detect devices with instance IDs outside valid BACnet range (0-4194303)",
       "device-validation", true, []⟩
      ((check_invalid_device_ranges g verbose).1.map Finding.range)
      ((check_invalid_device_ranges g verbose).2.map Affected.node)
      rfl rfl (by simp) (by rw [h3]; rfl)]
  rw [exec_go_step_two sem g verbose "device-address-conflicts" _ _ _ _ _
      ⟨.deviceAddressConflicts, "Detect devices with same address on same network/subnet",
       "device-conflicts", true, []⟩
      ((check_device_address_conflicts g verbose).1.map Finding.addr)
      ((check_device_address_conflicts g verbose).2.map Affected.node)
      rfl rfl (by simp) (by rw [h4]; rfl)]
  exact exec_go_step_three sem g verbose "missing-vendor-ids" _ _ _ _ _
      ⟨.missingVendorIds,
       "Detect devices without vendor identification or invalid vendor formats",
       "device-validation", true, []⟩
      ((check_missing_vendor_ids g verbose).1.map Finding.vendor)
      ((check_missing_vendor_ids g verbose).2.1.map Affected.triple)
      ((check_missing_vendor_ids g verbose).2.2.map Affected.node)
      rfl (by simp) (by rw [h5]; rfl)

/-- Closed instance of `claim2_execute_all_crashes` with the embedded
function table and the empty graph. -/
theorem claim2_execute_all_crashes_witness :
    sem_table_embedded FnId.dupDeviceIds = sem_check_duplicate_device_ids ∧
    sem_table_embedded FnId.orphanedDevices = sem_check_orphaned_devices ∧
    sem_table_embedded FnId.invalidDeviceRanges = sem_check_invalid_device_ranges ∧
    sem_table_embedded FnId.deviceAddressConflicts = sem_check_device_address_conflicts ∧
    sem_table_embedded FnId.missingVendorIds = sem_check_missing_vendor_ids ∧
    execute_checks sem_table_embedded (resolve_issues_to_check "all") [] false
      = .error .valueError :=
  ⟨rfl, rfl, rfl, rfl, rfl,
   claim2_execute_all_crashes sem_table_embedded [] false rfl rfl rfl rfl rfl⟩

end GraphHopper
